import Mathlib

/-!
Verification of the reconciliation core of the ansible-waldur-module
repository: a shallow embedding, in Lean, of the parameter resolver, the
state normalizer, the command (plan) layer and the reconciliation
orchestrator found in the `module_utils/waldur` trees of the source, with
theorems checking the natural-language specification against it.

Python values flowing through the code (module parameters, API payloads,
API responses) are modelled by the JSON-like type `Value`.  Python dicts
are association lists in insertion order, as in CPython.  The effectful
methods (which perform API requests via `send_request`, mutate the
resolver cache, or abort via `module.fail_json`) are modelled as explicit
state-passing functions returning `Except Failure (α × St)`, where `St`
carries the resolver cache, the runner's current resource, the warnings
emitted by `module.warn`, and the trace of HTTP requests issued so far; a
`Failure` corresponds to a `module.fail_json` call (which terminates the
Python process) and records which failure site fired.  The HTTP backend is
an oracle function in the environment mapping a request to a parsed
response body and a status code.

Two resolver variants exist in the source and genuinely differ; both are
embedded: namespace `OS` follows
`ansible_collections/waldur/openstack/plugins/module_utils/waldur/resolver.py`
and namespace `MP` follows
`ansible_collections/waldur/marketplace/plugins/module_utils/waldur/resolver.py`.
-/

/-- JSON-like values: the model of Python data handled by the modules
(`None`, booleans, integers, strings, lists, dicts).  Dicts are
association lists in insertion order, as in CPython. -/
inductive Value where
  | null
  | bool (b : Bool)
  | int (n : Int)
  | str (s : String)
  | list (xs : List Value)
  | obj (fields : List (String × Value))
deriving Repr

mutual

/-- Structural equality test on `Value`, modelling Python `==` on the
JSON-like fragment (dict equality in Python ignores insertion order; the
source only ever compares dicts produced along identical code paths, so
ordered comparison is faithful there). -/
def Value.beq : Value → Value → Bool
  | .null, .null => true
  | .bool a, .bool b => a == b
  | .int a, .int b => a == b
  | .str a, .str b => a == b
  | .list xs, .list ys => Value.beqList xs ys
  | .obj xs, .obj ys => Value.beqPairs xs ys
  | _, _ => false

/-- Pointwise `Value.beq` on lists. -/
def Value.beqList : List Value → List Value → Bool
  | [], [] => true
  | x :: xs, y :: ys => Value.beq x y && Value.beqList xs ys
  | _, _ => false

/-- Pointwise `Value.beq` on association lists. -/
def Value.beqPairs : List (String × Value) → List (String × Value) → Bool
  | [], [] => true
  | (k, v) :: xs, (k', v') :: ys => k == k' && Value.beq v v' && Value.beqPairs xs ys
  | _, _ => false

end

mutual

/-- `Value.beq` is reflexive. -/
theorem Value.beq_refl : ∀ v : Value, Value.beq v v = true
  | .null => rfl
  | .bool b => by simp [Value.beq]
  | .int n => by simp [Value.beq]
  | .str s => by simp [Value.beq]
  | .list xs => by simp [Value.beq, Value.beqList_refl xs]
  | .obj fs => by simp [Value.beq, Value.beqPairs_refl fs]

/-- `Value.beqList` is reflexive. -/
theorem Value.beqList_refl : ∀ xs : List Value, Value.beqList xs xs = true
  | [] => rfl
  | x :: xs => by simp [Value.beqList, Value.beq_refl x, Value.beqList_refl xs]

/-- `Value.beqPairs` is reflexive. -/
theorem Value.beqPairs_refl : ∀ xs : List (String × Value), Value.beqPairs xs xs = true
  | [] => rfl
  | (k, v) :: xs => by simp [Value.beqPairs, Value.beq_refl v, Value.beqPairs_refl xs]

end

instance : BEq Value := ⟨Value.beq⟩

/-- Python truthiness on the modelled values (`if value:`). -/
def Value.truthy : Value → Bool
  | .null => false
  | .bool b => b
  | .int n => n != 0
  | .str s => !s.isEmpty
  | .list xs => !xs.isEmpty
  | .obj fs => !fs.isEmpty

/-- Is the value a dict (`isinstance(value, dict)`). -/
def Value.isObj : Value → Bool
  | .obj _ => true
  | _ => false

/-- Is the value a list (`isinstance(value, list)`). -/
def Value.isList : Value → Bool
  | .list _ => true
  | _ => false

/-- Is the value hashable in Python's sense (everything except lists and
dicts in the modelled fragment). -/
def Value.hashable : Value → Bool
  | .list _ => false
  | .obj _ => false
  | _ => true

/-- Dict lookup, `d.get(k)` returning `none` for a missing key (first
binding wins, as in a Python dict that never holds duplicate keys). -/
def objGet (fields : List (String × Value)) (k : String) : Option Value :=
  match fields.find? (fun kv => kv.1 == k) with
  | some kv => some kv.2
  | none => none

/-- Dict membership test, `k in d`. -/
def objHasKey (fields : List (String × Value)) (k : String) : Bool :=
  (objGet fields k).isSome

/-- Dict update `d[k] = v`: overwrite in place if the key exists, append
otherwise (CPython insertion-order semantics). -/
def objSet (fields : List (String × Value)) (k : String) (v : Value) :
    List (String × Value) :=
  match fields with
  | [] => [(k, v)]
  | (k', v') :: tl =>
      if k' == k then (k', v) :: tl else (k', v') :: objSet tl k v

/-- Python `str(...)` on the modelled values, used when formatting path
parameters into URL templates. -/
def Value.pyStr : Value → String
  | .null => "None"
  | .bool true => "True"
  | .bool false => "False"
  | .int n => toString n
  | .str s => s
  | .list _ => "[...]"
  | .obj _ => "\x7b...\x7d"

/-- One hexadecimal digit, lowercase. -/
def hexDigit (n : Nat) : Char :=
  if n < 10 then Char.ofNat (48 + n) else Char.ofNat (87 + (n % 16))

/-- Four-digit lowercase hexadecimal rendering of a code unit, as used by
Python's `json.dumps` in `\uXXXX` escapes. -/
def hex4 (n : Nat) : String :=
  String.mk [hexDigit ((n / 4096) % 16), hexDigit ((n / 256) % 16),
             hexDigit ((n / 16) % 16), hexDigit (n % 16)]

/-- Escape one character the way Python's `json.dumps` does with its
default `ensure_ascii=True`: printable ASCII passes through, the standard
short escapes are used for quote, backslash and common control characters,
and everything else becomes `\uXXXX` (with a surrogate pair beyond the
basic multilingual plane). -/
def jsonEscapeChar (c : Char) : String :=
  if c = '"' then "\\\""
  else if c = '\\' then "\\\\"
  else if c = '\n' then "\\n"
  else if c = '\t' then "\\t"
  else if c = '\r' then "\\r"
  else if c.toNat = 8 then "\\b"
  else if c.toNat = 12 then "\\f"
  else if 32 ≤ c.toNat ∧ c.toNat ≤ 126 then String.mk [c]
  else if c.toNat < 65536 then "\\u" ++ hex4 c.toNat
  else
    let n := c.toNat - 65536
    "\\u" ++ hex4 (55296 + n / 1024) ++ "\\u" ++ hex4 (56320 + n % 1024)

/-- Escape a whole string for JSON output. -/
def jsonEscape (s : String) : String :=
  s.data.foldl (fun acc c => acc ++ jsonEscapeChar c) ""

/-- A JSON string literal: `"` + escaped body + `"`. -/
def jsonQuote (s : String) : String :=
  "\"" ++ jsonEscape s ++ "\""

/-- Join with commas and no whitespace (`separators=(",", ":")`). -/
def joinComma (parts : List String) : String :=
  match parts with
  | [] => ""
  | [p] => p
  | p :: tl => p ++ "," ++ joinComma tl

/-- Drop all but the first binding of each key (Python dicts cannot hold
duplicate keys; duplicate keys in our association lists can only carry
equal values, so keeping the first is faithful). -/
def dedupKeys (ps : List (String × String)) : List (String × String) :=
  match ps with
  | [] => []
  | (k, v) :: tl =>
      (k, v) :: dedupKeys (tl.filter (fun kv => kv.1 != k))
termination_by ps.length
decreasing_by
  simp only [List.length_cons]
  exact Nat.lt_succ_of_le (List.length_filter_le _ _)

/-- Key order used by `json.dumps(..., sort_keys=True)`: code-point
comparison of the key strings. -/
def pairKeyLE (a b : String × String) : Prop := a.1 ≤ b.1

instance : DecidableRel pairKeyLE := fun a b =>
  inferInstanceAs (Decidable (a.1 ≤ b.1))

/-- Render an object body: deduplicate keys, sort them, emit
compact `"key":value` members. -/
def renderSortedObj (ps : List (String × String)) : String :=
  "\x7b" ++
    joinComma (((dedupKeys ps).insertionSort pairKeyLE).map
      (fun kv => jsonQuote kv.1 ++ ":" ++ kv.2)) ++
  "\x7d"

mutual

/-- Model of Python's
`json.dumps(value, sort_keys=True, separators=(",", ":"))`: the compact,
deterministic serialization used by `_normalize_for_comparison` to build
canonical strings for list items. -/
def jsonDumps : Value → String
  | .null => "null"
  | .bool true => "true"
  | .bool false => "false"
  | .int n => toString n
  | .str s => jsonQuote s
  | .list xs => "[" ++ joinComma (jsonDumpsListParts xs) ++ "]"
  | .obj fs => renderSortedObj (jsonDumpsPairs fs)

/-- Serialize each element of a JSON array. -/
def jsonDumpsListParts : List Value → List String
  | [] => []
  | v :: tl => jsonDumps v :: jsonDumpsListParts tl

/-- Serialize the value of each object member, keeping the key. -/
def jsonDumpsPairs : List (String × Value) → List (String × String)
  | [] => []
  | (k, v) :: tl => (k, jsonDumps v) :: jsonDumpsPairs tl

end

/-- Canonical representation of a Python `set` of strings: sorted,
duplicate-free list.  Two Python sets are equal exactly when their
canonical representations are equal lists. -/
def canonSet (l : List String) : List String :=
  (l.dedup).insertionSort (· ≤ ·)

/-- Permutation invariance of the canonical set representation. -/
theorem canonSet_perm {l₁ l₂ : List String} (h : l₁.Perm l₂) :
    canonSet l₁ = canonSet l₂ := by
  unfold canonSet
  exact List.eq_of_perm_of_sorted
    ((List.perm_insertionSort _ _).trans ((h.dedup).trans
      (List.perm_insertionSort _ _).symm))
    (List.sorted_insertionSort _ _) (List.sorted_insertionSort _ _)

/-- Injection of a hashable Python value into the string universe used to
represent set elements.  A Python string is tagged with `s:` so the same
injection serves both the Mode A sets (whose elements are canonical JSON
strings) and the Mode B sets (whose elements are arbitrary hashable
scalars). -/
def scalarCanon : Value → String
  | .null => "n"
  | .bool b => "b:" ++ toString b
  | .int n => "i:" ++ toString n
  | .str s => "s:" ++ s
  | .list _ => "unhashable"
  | .obj _ => "unhashable"

/-- Result of `_normalize_for_comparison`: either the value passed (or
fell) through unchanged, or a canonicalized set. -/
inductive NormResult where
  | raw (v : Value)
  | set (elems : List String)
deriving Repr

/-- Equality of normalization results, as compared by the `!=` in
`_build_action_update_commands`. -/
def NormResult.beq : NormResult → NormResult → Bool
  | .raw a, .raw b => a.beq b
  | .set a, .set b => a == b
  | _, _ => false

/-- `BaseRunner._apply_defaults` (openstack `base_runner.py`, lines
713-731): copy the item, then add each missing key of the defaults map
with its default value. -/
def applyDefaults (item : List (String × Value)) (defaultsMap : List (String × Value)) :
    List (String × Value) :=
  defaultsMap.foldl
    (fun acc kv => if objHasKey acc kv.1 then acc else acc ++ [kv])
    item

/-- The canonical string `_normalize_for_comparison` computes for one
dictionary item in Mode A: apply the defaults map, project onto the
idempotency keys (`item_to_process.get(key)`, `None` when missing), and
serialize with `json.dumps(..., sort_keys=True, separators=(",", ":"))`. -/
def itemCanon (idempotencyKeys : List String) (defaultsMap : List (String × Value))
    (fields : List (String × Value)) : String :=
  let processed := applyDefaults fields defaultsMap
  jsonDumps (.obj (idempotencyKeys.map (fun k => (k, (objGet processed k).getD .null))))

/-- Extract the field lists of a list of values when every element is a
dict; `none` as soon as one element is not (the loop in Mode A aborts and
returns the original list on the first non-dict item). -/
def allObjFields : List Value → Option (List (List (String × Value)))
  | [] => some []
  | .obj fs :: tl => (allObjFields tl).map (fs :: ·)
  | _ => none

/-- `BaseRunner._normalize_for_comparison` (openstack `base_runner.py`,
lines 313-431).  Non-lists pass through; the empty list becomes the empty
set; a list of dicts guided by non-empty idempotency keys becomes the set
of canonical strings of its items (Mode A, falling back to the raw list if
a non-dict item appears); any other list becomes the set of its elements
when they are all hashable and stays raw otherwise (Mode B and its
`TypeError` safety net). -/
def normalizeForComparison (value : Value) (idempotencyKeys : List String)
    (defaultsMap : List (String × Value)) : NormResult :=
  match value with
  | .list [] => .set []
  | .list (v₀ :: rest) =>
      if !idempotencyKeys.isEmpty && v₀.isObj then
        match allObjFields (v₀ :: rest) with
        | some fss =>
            .set (canonSet (fss.map
              (fun fs => scalarCanon (.str (itemCanon idempotencyKeys defaultsMap fs)))))
        | none => .raw value
      else
        if (v₀ :: rest).all Value.hashable then
          .set (canonSet ((v₀ :: rest).map scalarCanon))
        else .raw value
  | v => .raw v

/-- Helper: mapping over a reversed list is the reverse of the map, and a
reverse is a permutation, so the canonical sets agree. -/
theorem canonSet_map_reverse {α : Type} (f : α → String) (l : List α) :
    canonSet (l.reverse.map f) = canonSet (l.map f) := by
  apply canonSet_perm
  rw [List.map_reverse]
  exact List.reverse_perm _

/-- C4, part (a): order-insensitivity for lists of hashable scalars. -/
theorem normalize_reverse_scalars (L : List Value) (d : List (String × Value))
    (h : ∀ v ∈ L, v.hashable = true) :
    normalizeForComparison (.list L.reverse) [] d =
      normalizeForComparison (.list L) [] d := by
  match L with
  | [] => rfl
  | v₀ :: rest =>
      have hall : (v₀ :: rest).all Value.hashable = true := by
        rw [List.all_eq_true]; exact h
      have hallrev : (v₀ :: rest).reverse.all Value.hashable = true := by
        rw [List.all_eq_true]
        intro x hx
        exact h x (List.mem_reverse.mp hx)
      match hrev : (v₀ :: rest).reverse with
      | [] => exact absurd (congrArg List.length hrev) (by simp)
      | w₀ :: wrest =>
          have hwall : (w₀ :: wrest).all Value.hashable = true := hrev ▸ hallrev
          have hw0 : w₀.isObj = false := by
            have := (List.all_eq_true.mp hwall) w₀ (by simp)
            cases w₀ <;> simp_all [Value.hashable, Value.isObj]
          simp only [normalizeForComparison, List.isEmpty_nil,
            Bool.not_true, Bool.false_and, if_neg, hall, hwall, if_pos,
            Bool.and_self, hw0]
          rw [show ((w₀ :: wrest).map scalarCanon) = ((v₀ :: rest).reverse.map scalarCanon) by rw [hrev]]
          rw [canonSet_map_reverse]
          have hv0 : v₀.isObj = false := by
            have := h v₀ (by simp)
            cases v₀ <;> simp_all [Value.hashable, Value.isObj]
          simp [hv0]

/-- C4, part (b): normalization of dict lists depends only on the multiset
of canonical item strings, so two lists that are permutations with respect
to the idempotency keys (with the defaults map applied, which covers a
default-backfilled key versus an explicit equal value) normalize
identically. -/
theorem normalize_dictlists_perm (keys : List String)
    (d : List (String × Value)) (F₁ F₂ : List (List (String × Value)))
    (hk : keys ≠ [])
    (hperm : (F₁.map (itemCanon keys d)).Perm (F₂.map (itemCanon keys d))) :
    normalizeForComparison (.list (F₁.map Value.obj)) keys d =
      normalizeForComparison (.list (F₂.map Value.obj)) keys d := by
  have hfields : ∀ F : List (List (String × Value)),
      allObjFields (F.map Value.obj) = some F := by
    intro F
    induction F with
    | nil => rfl
    | cons fs tl ih => simp [allObjFields, ih]
  have hset : ∀ F : List (List (String × Value)), F ≠ [] →
      normalizeForComparison (.list (F.map Value.obj)) keys d =
        .set (canonSet (F.map
          (fun fs => scalarCanon (.str (itemCanon keys d fs))))) := by
    intro F hF
    match F with
    | [] => exact absurd rfl hF
    | fs :: tl =>
        have hkeys : keys.isEmpty = false := by
          cases keys with
          | nil => exact absurd rfl hk
          | cons a as => rfl
        have h2 : allObjFields (Value.obj fs :: tl.map Value.obj) = some (fs :: tl) := by
          simpa using hfields (fs :: tl)
        simp [normalizeForComparison, hkeys, Value.isObj, h2]
  match hF₁ : F₁, hF₂ : F₂ with
  | [], [] => rfl
  | [], g :: gs => simp at hperm
  | f :: fs, [] => simp at hperm
  | f :: fs, g :: gs =>
      rw [hset (f :: fs) (by simp), hset (g :: gs) (by simp)]
      have : ((f :: fs).map (fun fs => scalarCanon (.str (itemCanon keys d fs)))).Perm
          ((g :: gs).map (fun fs => scalarCanon (.str (itemCanon keys d fs)))) := by
        have := hperm.map (fun s => scalarCanon (.str s))
        simpa [List.map_map, Function.comp] using this
      rw [canonSet_perm this]

/-- C4: `_normalize_for_comparison` is order-insensitive: (a) for every
list of hashable scalar values, normalizing the list and its reverse (with
no idempotency keys) give the same result; (b) for dict lists, the result
depends only on the multiset of canonical item strings with respect to the
idempotency keys and the defaults map, so permuted dict lists — including
one that omits a key the defaults map backfills with the value the other
states explicitly — normalize identically. -/
theorem normalize_for_comparison_order_insensitive :
    (∀ (L : List Value) (d : List (String × Value)),
        (∀ v ∈ L, v.hashable = true) →
        normalizeForComparison (.list L) [] d =
          normalizeForComparison (.list L.reverse) [] d)
  ∧ (∀ (keys : List String) (d : List (String × Value))
        (F₁ F₂ : List (List (String × Value))),
        keys ≠ [] →
        (F₁.map (itemCanon keys d)).Perm (F₂.map (itemCanon keys d)) →
        normalizeForComparison (.list (F₁.map Value.obj)) keys d =
          normalizeForComparison (.list (F₂.map Value.obj)) keys d) :=
  ⟨fun L d h => (normalize_reverse_scalars L d h).symm,
   fun keys d F₁ F₂ hk hp => normalize_dictlists_perm keys d F₁ F₂ hk hp⟩

/-- Witness for C4: a concrete scalar list and its reverse normalize
equally, and a concrete dict-list permutation — where one side omits the
`ip` key that the defaults map backfills with the value the other side
states explicitly — normalizes equally. -/
theorem normalize_for_comparison_order_insensitive_witness :
    normalizeForComparison (.list [.str "x", .int 2]) [] [] =
      normalizeForComparison (.list [.int 2, .str "x"]) [] [] ∧
    normalizeForComparison
        (.list [.obj [("subnet", .str "a")],
                .obj [("subnet", .str "b"), ("ip", .str "fixed")]])
        ["subnet", "ip"] [("ip", .str "auto")] =
      normalizeForComparison
        (.list [.obj [("subnet", .str "b"), ("ip", .str "fixed")],
                .obj [("subnet", .str "a"), ("ip", .str "auto")]])
        ["subnet", "ip"] [("ip", .str "auto")] :=
  ⟨normalize_for_comparison_order_insensitive.1 [.str "x", .int 2] []
     (by simp [Value.hashable]),
   normalize_for_comparison_order_insensitive.2 ["subnet", "ip"] [("ip", .str "auto")]
     [[("subnet", .str "a")], [("subnet", .str "b"), ("ip", .str "fixed")]]
     [[("subnet", .str "b"), ("ip", .str "fixed")], [("subnet", .str "a"), ("ip", .str "auto")]]
     (List.cons_ne_nil _ _) (List.Perm.swap _ _ [])⟩

/-- An HTTP request as issued by `send_request`: the query string is kept
structured (the source URL-encodes it into the URL; the encoding is
injective, so an oracle over structured requests is equivalent). -/
structure Request where
  method : String
  url : String
  query : List (String × Value)
  body : Option Value
deriving Repr

/-- A `module.fail_json` call (which terminates the module process),
tagged by the failure site that fired, carrying the message it formats. -/
inductive Failure where
  | missingPathParam (path : String)
  | backendError (status : Nat) (url : String)
  | notFound (msg : String)
  | ambiguous (msg : String)
  | configError (msg : String)
  | taskErred (state : String)
  | pollTimeout (msg : String)
  | pyTypeError (msg : String)
  | failJson (msg : String)
  | fuelExhausted
deriving Repr

/-- One `filter_by` dependency rule of a resolver configuration. -/
structure FilterDep where
  sourceParam : String
  sourceKey : String
  targetKey : String
deriving Repr

/-- Per-parameter resolver configuration (one entry of the context's
`resolvers` dict). -/
structure ResolverConf where
  url : String
  errorMessage : Option String
  isList : Bool
  nameQueryParam : Option String
  listItemKeys : List (String × String)
  filterBy : List FilterDep
deriving Repr

/-- A resolver configuration with only the list endpoint set. -/
def ResolverConf.simple (url : String) : ResolverConf :=
  ⟨url, none, false, none, [], []⟩

/-- One configured update action (an entry of the context's
`update_actions` dict, openstack flavour). -/
structure ActionInfo where
  param : String
  compareKey : Option String
  path : String
  idempotencyKeys : List String
  defaultsMap : Option (List (String × Value))
  wrapInObject : Bool
deriving Repr

/-- One configured update action in the structure-tree `CrudRunner`
flavour, which uses a plain `check_field` comparison. -/
structure CrudActionInfo where
  param : String
  checkField : String
  path : String
  wrapInObject : Bool
deriving Repr

/-- The waiting configuration consumed by `_wait_for_resource_state`,
with the `.get(..., default)` defaults already applied. -/
structure WaitConfig where
  okStates : List String
  erredStates : List String
  stateField : String
deriving Repr

/-- The runner context: the configuration dictionary driving a concrete
module (endpoint paths, resolver configurations, update metadata). -/
structure Ctx where
  resolvers : List (String × ResolverConf)
  checkUrl : String
  checkFilterKeys : List (String × String)
  updatePath : Option String
  updateFields : List String
  updateActions : List (String × ActionInfo)
  waitConfig : Option WaitConfig
  resourceDetailPath : Option String
  resourceType : String

/-- The fixed data of one module run: the Ansible parameters, the API
base URL, check mode, the context, and the backend oracle mapping each
request to a parsed response body (`none` models an empty body) and an
HTTP status code. -/
structure Env where
  params : List (String × Value)
  apiUrl : String
  checkMode : Bool
  ctx : Ctx
  backend : Request → Option Value × Nat

/-- `self.module.params.get(name)`: every declared parameter defaults to
`None`, so a missing key reads as `null`. -/
def getParam (env : Env) (name : String) : Value :=
  (objGet env.params name).getD .null

/-- `name in self.module.params`: is this a declared (top-level) module
parameter. -/
def paramDeclared (env : Env) (name : String) : Bool :=
  objHasKey env.params name

/-- `self.context["resolvers"].get(param_name)`. -/
def lookupConf (env : Env) (paramName : String) : Option ResolverConf :=
  match env.ctx.resolvers.find? (fun kv => kv.1 == paramName) with
  | some kv => some kv.2
  | none => none

/-- Keys of the resolver cache: the bare parameter name, or the
`(param_name, value)` tuple. -/
inductive CacheKey where
  | name (n : String)
  | pair (n : String) (v : Value)
deriving Repr

/-- Equality of cache keys. -/
def CacheKey.beq : CacheKey → CacheKey → Bool
  | .name a, .name b => a == b
  | .pair a v, .pair b w => a == b && v.beq w
  | _, _ => false

/-- `CacheKey.beq` is reflexive. -/
theorem CacheKey.beq_key_refl : ∀ k : CacheKey, CacheKey.beq k k = true
  | .name a => by simp [CacheKey.beq]
  | .pair a v => by simp [CacheKey.beq, Value.beq_refl v]

/-- The mutable state threaded through a run: the resolver cache, the
runner's current resource, the `has_changed` flag, the trace of requests
issued so far, and the warnings emitted by `module.warn`. -/
structure St where
  cache : List (CacheKey × Value)
  resource : Option Value
  hasChanged : Bool
  trace : List Request
  warnings : List String

/-- The empty state a runner starts a reconciliation run with. -/
def St.initial : St := ⟨[], none, false, [], []⟩

/-- Cache lookup (`key in self.cache` / `self.cache[key]`). -/
def cacheGet (cache : List (CacheKey × Value)) (k : CacheKey) : Option Value :=
  match cache.find? (fun kv => CacheKey.beq kv.1 k) with
  | some kv => some kv.2
  | none => none

/-- Cache store `self.cache[key] = v` (overwrite in place, else append:
CPython dict semantics). -/
def cacheSet (cache : List (CacheKey × Value)) (k : CacheKey) (v : Value) :
    List (CacheKey × Value) :=
  match cache with
  | [] => [(k, v)]
  | (k', v') :: tl =>
      if CacheKey.beq k' k then (k', v) :: tl else (k', v') :: cacheSet tl k v

/-- Unfolding step for cache lookup on a non-empty cache. -/
theorem cacheGet_cons (k' : CacheKey) (v' : Value) (tl : List (CacheKey × Value))
    (k : CacheKey) :
    cacheGet ((k', v') :: tl) k =
      if CacheKey.beq k' k then some v' else cacheGet tl k := by
  by_cases h : CacheKey.beq k' k = true
  · simp [cacheGet, List.find?_cons_of_pos _ h, h]
  · simp [cacheGet, List.find?_cons_of_neg _ h, h]

/-- A store is immediately visible to a lookup of the same key. -/
theorem cacheGet_cacheSet_self (cache : List (CacheKey × Value)) (k : CacheKey)
    (v : Value) : cacheGet (cacheSet cache k v) k = some v := by
  induction cache with
  | nil => simp [cacheSet, cacheGet_cons, CacheKey.beq_key_refl k]
  | cons kv tl ih =>
      obtain ⟨k', v'⟩ := kv
      by_cases h : CacheKey.beq k' k = true
      · simp [cacheSet, h, cacheGet_cons]
      · simp [cacheSet, h, cacheGet_cons, ih]

/-- Record a `module.warn` message. -/
def addWarning (st : St) (msg : String) : St :=
  { st with warnings := st.warnings ++ [msg] }

/-- Pattern test `p` at the front of `s` (reduces definitionally, unlike
the built-in `String.startsWith`). -/
def strStartsWith (s p : String) : Bool :=
  p.data.isPrefixOf s.data

/-- Worker for `replaceChars`: `fuel` bounds the scan (every step
consumes at least one character, so `l.length` always suffices); the
recursion is structural on `fuel` so the function reduces
definitionally. -/
def replaceCharsAux (fuel : Nat) (l pat rep : List Char) : List Char :=
  match fuel with
  | 0 => l
  | fuel + 1 =>
      match l with
      | [] => []
      | c :: tl =>
          if pat.isPrefixOf (c :: tl) && !pat.isEmpty then
            rep ++ replaceCharsAux fuel ((c :: tl).drop pat.length) pat rep
          else c :: replaceCharsAux fuel tl pat rep

/-- Replace every non-overlapping occurrence of `pat` (non-empty) in a
character list, scanning left to right as Python's `str.replace` does. -/
def replaceChars (l pat rep : List Char) : List Char :=
  replaceCharsAux l.length l pat rep

/-- `s.replace(pattern, replacement)` on the character lists. -/
def strReplace (s pattern replacement : String) : String :=
  String.mk (replaceChars s.data pattern.data replacement.data)

/-- Drop leading characters satisfying `p`. -/
def strDropWhile (s : String) (p : Char → Bool) : String :=
  String.mk (s.data.dropWhile p)

/-- Drop trailing characters satisfying `p`. -/
def strDropRightWhile (s : String) (p : Char → Bool) : String :=
  String.mk ((s.data.reverse.dropWhile p).reverse)

/-- Does the string contain the character. -/
def strContainsChar (s : String) (c : Char) : Bool :=
  s.data.any (· == c)

/-- The literal `\x7bvalue\x7d` placeholder used in resolver error
message templates. -/
def valuePlaceholder : String := "\x7bvalue\x7d"

/-- `error_template.format(value=value)`. -/
def formatValueTemplate (tmpl : String) (value : Value) : String :=
  strReplace tmpl valuePlaceholder value.pyStr

/-- The default resolver error template,
`"Resource '\x7bvalue\x7d' not found."`. -/
def defaultNotFoundTemplate : String := "Resource '" ++ valuePlaceholder ++ "' not found."

/-- The opening brace character, for placeholder detection. -/
def obraceChar : Char := '\x7b'

/-- `path.format(**path_params)` (only reached when `path_params` is
truthy): substitute every `\x7bkey\x7d` placeholder; a placeholder left
unsubstituted raises `KeyError`, which `send_request` turns into a
`fail_json`. -/
def formatPath (path : String) (pathParams : List (String × Value)) :
    Except Failure String :=
  match pathParams with
  | [] => .ok path
  | _ =>
      let s := pathParams.foldl
        (fun acc kv => strReplace acc ("\x7b" ++ kv.1 ++ "\x7d") kv.2.pyStr) path
      if strContainsChar s obraceChar then .error (.missingPathParam s) else .ok s

/-- `s.rstrip("/")`. -/
def rstripSlash (s : String) : String := strDropRightWhile s (· == '/')

/-- `s.lstrip("/")`. -/
def lstripSlash (s : String) : String := strDropWhile s (· == '/')

/-- `s.strip("/")`. -/
def stripSlash (s : String) : String := lstripSlash (rstripSlash s)

/-- Hexadecimal digit test for the UUID shape check. -/
def isHexChar (c : Char) : Bool :=
  c.isDigit || ('a' ≤ c && c ≤ 'f') || ('A' ≤ c && c ≤ 'F')

/-- Model of `uuid.UUID(str(val))` succeeding: after removing `urn:` and
`uuid:` markers, stripping surrounding braces and removing dashes, exactly
32 hexadecimal digits remain. -/
def isUuidStr (s : String) : Bool :=
  let t := strReplace (strReplace s "urn:" "") "uuid:" ""
  let t := strDropRightWhile (strDropWhile t (fun c => c == '\x7b' || c == '\x7d'))
    (fun c => c == '\x7b' || c == '\x7d')
  let t := strReplace t "-" ""
  t.length == 32 && t.data.all isHexChar

/-- `BaseRunner._is_uuid(val)`: `uuid.UUID(str(val))` on the stringified
value. -/
def pyIsUuid (v : Value) : Bool := isUuidStr v.pyStr

/-- Is the value the Python `None`. -/
def Value.isNull : Value → Bool
  | .null => true
  | _ => false

/-- `isinstance(value, str) and value.startswith(("http://", "https://"))`. -/
def Value.isHttpUrl : Value → Bool
  | .str s => strStartsWith s "http://" || strStartsWith s "https://"
  | _ => false

/-- `resolved_object["url"]`: dict indexing; a missing key or a non-dict
raises. -/
def objUrl (v : Value) : Option Value :=
  match v with
  | .obj fs => objGet fs "url"
  | _ => none

/-- The final URL `send_request` builds: an already-absolute path is used
directly, anything else is prefixed with the configured base URL. -/
def buildUrl (env : Env) (fpath : String) : String :=
  if strStartsWith fpath "http://" || strStartsWith fpath "https://" then fpath
  else rstripSlash env.apiUrl ++ "/" ++ lstripSlash fpath

/-- `BaseRunner.send_request` (openstack `base_runner.py`, lines
145-243): format path parameters, build the URL from the base `api_url`
unless the path is already absolute, issue the request, fail on any
status outside 200/201/202/204, and parse the body (an empty successful
body reads as `[]` for GET and as `None` otherwise). -/
def sendRequestOS (env : Env) (st : St) (method path : String)
    (data : Option Value) (queryParams : List (String × Value))
    (pathParams : List (String × Value)) : Except Failure ((Value × Nat) × St) :=
  match formatPath path pathParams with
  | .error e => .error e
  | .ok fpath =>
      let url := buildUrl env fpath
      let req : Request := ⟨method, url, queryParams, data⟩
      let st' := { st with trace := st.trace ++ [req] }
      let res := env.backend req
      if res.2 = 200 ∨ res.2 = 201 ∨ res.2 = 202 ∨ res.2 = 204 then
        match res.1 with
        | none => .ok ((if method = "GET" then .list [] else .null, res.2), st')
        | some b => .ok ((b, res.2), st')
      else .error (.backendError res.2 url)

/-- Python repr of a dict's key list, used in the dependency-filter error
message (`list(source_object.keys())`). -/
def pyKeysRepr (v : Value) : String :=
  match v with
  | .obj fs => "[" ++ String.intercalate ", " (fs.map (fun kv => "'" ++ kv.1 ++ "'")) ++ "]"
  | _ => "[]"

/-- `value.get(key)` via attribute access; raises on a non-dict. -/
def pyGetAttr (v : Value) (k : String) : Except Failure Value :=
  match v with
  | .obj fs => .ok ((objGet fs k).getD .null)
  | _ => .error (.pyTypeError "get on non-dict")

/-- `resolver_conf.get("error_message") or "Resource '\x7bvalue\x7d' not
found."`: the `or` applies Python truthiness, so an empty template also
falls back to the default. -/
def confErrorTemplate (conf : ResolverConf) : String :=
  match conf.errorMessage with
  | some t => if t.isEmpty then defaultNotFoundTemplate else t
  | none => defaultNotFoundTemplate

/-- The openstack resolver's warning on an ambiguous match:
`Multiple resources found for '...' for parameter '...'. Using the first
one.` -/
def multiWarnMsg (value : Value) (paramName : String) : String :=
  "Multiple resources found for '" ++ value.pyStr ++ "' for parameter '" ++
    paramName ++ "'. Using the first one."

/-- The marketplace resolver's fatal ambiguity message, which instructs
the caller to supply a UUID. -/
def ambiguousMsg (value : Value) (paramName : String) (count : Nat) : String :=
  "Multiple resources found for '" ++ value.pyStr ++ "' (parameter '" ++
    paramName ++ "'). Found " ++ toString count ++
    " matches. This resource name is not unique. " ++
    "Please use a UUID for precise identification, or ensure the resource name is unique."

/-- `ParameterResolver._build_dependency_filters` (openstack
`resolver.py`, lines 276-311): each dependency must already be in the
cache under its bare source-parameter name, or the run fails with the
configuration error; a cached object missing the source key is also
fatal.  `acc` is the `query_params` dict being built (callers pass `[]`). -/
def OS.buildDependencyFilters (env : Env) (st : St) (name : String)
    (dependencies : List FilterDep) (acc : List (String × Value)) :
    Except Failure (List (String × Value)) :=
  match dependencies with
  | [] => .ok acc
  | dep :: tl =>
      match cacheGet st.cache (.name dep.sourceParam) with
      | none =>
          .error (.configError ("Configuration error: Resolver for '" ++ name ++
            "' depends on '" ++ dep.sourceParam ++
            "', which has not been resolved yet. This may be due to a missing parameter or an incorrect ordering in the module logic."))
      | some so =>
          match pyGetAttr so dep.sourceKey with
          | .error e => .error e
          | .ok sv =>
              if sv.isNull then
                .error (.configError ("Could not find key '" ++ dep.sourceKey ++
                  "' in the cached response for '" ++ dep.sourceParam ++
                  "'. Available keys: " ++ pyKeysRepr so))
              else OS.buildDependencyFilters env st name tl (objSet acc dep.targetKey sv)

/-- `ParameterResolver._resolve_to_list` (openstack `resolver.py`, lines
313-348): a UUID-shaped value is fetched once from its detail URL (the
result wrapped in a singleton list, or the empty list when the body is
empty); any other value triggers exactly one filtered search combining
the dependency filters with the `name_exact` filter. -/
def OS.resolveToList (env : Env) (st : St) (path : String) (value : Value)
    (queryParams : List (String × Value)) : Except Failure (Value × St) :=
  if pyIsUuid value then
    match sendRequestOS env st "GET" (rstripSlash path ++ "/" ++ value.pyStr ++ "/")
        none [] [] with
    | .error e => .error e
    | .ok (res, st₁) =>
        .ok (if res.1.truthy then .list [res.1] else .list [], st₁)
  else
    let finalQuery := objSet queryParams "name_exact" value
    match sendRequestOS env st "GET" path none finalQuery [] with
    | .error e => .error e
    | .ok (res, st₁) => .ok (if res.1.isNull then .list [] else res.1, st₁)

/-- Step 4 of `_resolve_single_value` (identical in both resolver
variants): for an `is_list` resolver whose `list_item_keys` map has a
truthy entry for the requested output format, wrap the resolved object's
URL in an object under that key; otherwise return the bare URL
(`resolved_object["url"]`). -/
def formatResolvedValue (conf : ResolverConf) (outputFormat : String)
    (resolvedObject : Value) : Except Failure Value :=
  let wrap : Option String :=
    if conf.isList then
      match conf.listItemKeys.find? (fun kv => kv.1 == outputFormat) with
      | some kv => if kv.2.isEmpty then none else some kv.2
      | none => none
    else none
  match wrap, objUrl resolvedObject with
  | some itemKey, some u => .ok (.obj [(itemKey, u)])
  | none, some u => .ok u
  | _, none => .error (.pyTypeError "KeyError: url")

/-- `ParameterResolver._resolve_single_value` (openstack `resolver.py`,
lines 200-274): build the dependency filters, short-circuit on a
`(param_name, value)` cache hit, otherwise perform the lookup; zero
results fail with the templated not-found message, two or more results
emit a warning and the FIRST match is used; a successful lookup is cached
under the tuple key and, for declared module parameters, under the bare
name key. -/
def OS.resolveSingleValue (env : Env) (st : St) (paramName : String)
    (value : Value) (conf : ResolverConf) (outputFormat : String) :
    Except Failure (Value × St) :=
  match OS.buildDependencyFilters env st paramName conf.filterBy [] with
  | .error e => .error e
  | .ok queryParams =>
      match cacheGet st.cache (.pair paramName value) with
      | some resolvedObject =>
          match formatResolvedValue conf outputFormat resolvedObject with
          | .error e => .error e
          | .ok out => .ok (out, st)
      | none =>
          match OS.resolveToList env st conf.url value queryParams with
          | .error e => .error e
          | .ok (resourceList, st₁) =>
              if resourceList.truthy = false then
                .error (.notFound (formatValueTemplate (confErrorTemplate conf) value))
              else
                match resourceList with
                | .list (x :: rest) =>
                    let st₂ := if rest.isEmpty then st₁
                      else addWarning st₁ (multiWarnMsg value paramName)
                    let cache₁ := cacheSet st₂.cache (.pair paramName value) x
                    let cache₂ := if paramDeclared env paramName
                      then cacheSet cache₁ (.name paramName) x else cache₁
                    let st₃ := { st₂ with cache := cache₂ }
                    match formatResolvedValue conf outputFormat x with
                    | .error e => .error e
                    | .ok out => .ok (out, st₃)
                | _ => .error (.pyTypeError "len() on a non-list response")

/-- The recursion over a list of independently resolvable items
(`is_list` case of `resolve`): each item goes through
`_resolve_single_value` in order. -/
def OS.resolveListOfSingles (env : Env) (st : St) (paramName : String)
    (items : List Value) (conf : ResolverConf) (outputFormat : String) :
    Except Failure (List Value × St) :=
  match items with
  | [] => .ok ([], st)
  | item :: tl =>
      match OS.resolveSingleValue env st paramName item conf outputFormat with
      | .error e => .error e
      | .ok (r, st₁) =>
          match OS.resolveListOfSingles env st₁ paramName tl conf outputFormat with
          | .error e => .error e
          | .ok (rtl, st₂) => .ok (r :: rtl, st₂)

mutual

/-- `ParameterResolver.resolve` (openstack `resolver.py`, lines 132-198):
recursive traversal. A dict is walked key by key, each key becoming the
parameter-name context of its value; a list is either mapped through
`_resolve_single_value` (when the parameter's resolver is `is_list`) or
recursed into item by item under the same name; a primitive is resolved
when a resolver configuration exists for the name and passes through
unchanged otherwise.  `fuel` bounds the recursion depth (the Python code
recurses on the value structure, which is finite). -/
def OS.resolve (env : Env) (fuel : Nat) (st : St) (paramName : String)
    (paramValue : Value) (outputFormat : String) : Except Failure (Value × St) :=
  match fuel with
  | 0 => .error .fuelExhausted
  | fuel + 1 =>
      match paramValue with
      | .obj fields =>
          match OS.resolveFields env fuel st fields outputFormat with
          | .error e => .error e
          | .ok (rfields, st₁) => .ok (.obj rfields, st₁)
      | .list items =>
          match lookupConf env paramName with
          | some conf =>
              if conf.isList then
                match OS.resolveListOfSingles env st paramName items conf outputFormat with
                | .error e => .error e
                | .ok (ritems, st₁) => .ok (.list ritems, st₁)
              else
                match OS.resolveItems env fuel st paramName items outputFormat with
                | .error e => .error e
                | .ok (ritems, st₁) => .ok (.list ritems, st₁)
          | none =>
              match OS.resolveItems env fuel st paramName items outputFormat with
              | .error e => .error e
              | .ok (ritems, st₁) => .ok (.list ritems, st₁)
      | prim =>
          match lookupConf env paramName with
          | some conf => OS.resolveSingleValue env st paramName prim conf outputFormat
          | none => .ok (prim, st)

/-- Walk a dict's entries, resolving each value under its key. -/
def OS.resolveFields (env : Env) (fuel : Nat) (st : St)
    (fields : List (String × Value)) (outputFormat : String) :
    Except Failure (List (String × Value) × St) :=
  match fuel with
  | 0 => .error .fuelExhausted
  | fuel + 1 =>
      match fields with
      | [] => .ok ([], st)
      | (k, v) :: tl =>
          match OS.resolve env fuel st k v outputFormat with
          | .error e => .error e
          | .ok (rv, st₁) =>
              match OS.resolveFields env fuel st₁ tl outputFormat with
              | .error e => .error e
              | .ok (rtl, st₂) => .ok ((k, rv) :: rtl, st₂)

/-- Walk a list of sub-structures, resolving each under the same
parameter name. -/
def OS.resolveItems (env : Env) (fuel : Nat) (st : St) (paramName : String)
    (items : List Value) (outputFormat : String) :
    Except Failure (List Value × St) :=
  match fuel with
  | 0 => .error .fuelExhausted
  | fuel + 1 =>
      match items with
      | [] => .ok ([], st)
      | item :: tl =>
          match OS.resolve env fuel st paramName item outputFormat with
          | .error e => .error e
          | .ok (r, st₁) =>
              match OS.resolveItems env fuel st₁ paramName tl outputFormat with
              | .error e => .error e
              | .ok (rtl, st₂) => .ok (r :: rtl, st₂)

end

/-- `ParameterResolver.resolve_to_url` (openstack `resolver.py`, lines
81-130): a UUID constructs the detail URL directly with no request; a
name performs one `name_exact` search; zero matches fail with the
templated message; multiple matches only WARN and the first match's URL
is returned. -/
def OS.resolveToUrl (env : Env) (st : St) (paramName : String) (value : Value) :
    Except Failure (Value × St) :=
  match lookupConf env paramName with
  | none =>
      .error (.configError ("Configuration error: No resolver found for parameter '" ++
        paramName ++ "'."))
  | some conf =>
      if pyIsUuid value then
        .ok (.str (rstripSlash env.apiUrl ++ "/" ++ stripSlash conf.url ++ "/" ++
          value.pyStr ++ "/"), st)
      else
        match sendRequestOS env st "GET" conf.url none [("name_exact", value)] [] with
        | .error e => .error e
        | .ok (res, st₁) =>
            if res.1.truthy = false then
              .error (.notFound (formatValueTemplate (confErrorTemplate conf) value))
            else
              match res.1 with
              | .list (x :: rest) =>
                  let st₂ := if rest.isEmpty then st₁
                    else addWarning st₁ (multiWarnMsg value paramName)
                  match objUrl x with
                  | some u => .ok (u, st₂)
                  | none => .error (.pyTypeError "KeyError: url")
              | _ => .error (.pyTypeError "len() on a non-list response")

/-- `BaseRunner.send_request` (structure `base_runner.py`, lines 171-333,
the variant the marketplace runners share): like the openstack variant
but failing on any status at or above 400, and treating a 204 or empty
body as `[]` for GET and `None` otherwise. -/
def sendRequestST (env : Env) (st : St) (method path : String)
    (data : Option Value) (queryParams : List (String × Value))
    (pathParams : List (String × Value)) : Except Failure ((Value × Nat) × St) :=
  match formatPath path pathParams with
  | .error e => .error e
  | .ok fpath =>
      let url := buildUrl env fpath
      let req : Request := ⟨method, url, queryParams, data⟩
      let st' := { st with trace := st.trace ++ [req] }
      let res := env.backend req
      if res.2 ≥ 400 then .error (.backendError res.2 url)
      else if res.2 == 204 || res.1.isNone then
        .ok ((if method = "GET" then .list [] else .null, res.2), st')
      else .ok ((res.1.getD .null, res.2), st')

/-- `ParameterResolver._resolve_to_list` (marketplace `resolver.py`,
lines 359-409): like the openstack variant, plus a direct fetch for
fully-qualified URL values and a configurable name query parameter. -/
def MP.resolveToList (env : Env) (st : St) (path : String) (value : Value)
    (queryParams : List (String × Value)) (conf? : Option ResolverConf) :
    Except Failure (Value × St) :=
  if pyIsUuid value then
    match sendRequestST env st "GET" (rstripSlash path ++ "/" ++ value.pyStr ++ "/")
        none [] [] with
    | .error e => .error e
    | .ok (res, st₁) =>
        .ok (if res.1.truthy then .list [res.1] else .list [], st₁)
  else if value.isHttpUrl then
    match sendRequestST env st "GET" value.pyStr none [] [] with
    | .error e => .error e
    | .ok (res, st₁) =>
        .ok (if res.1.truthy then .list [res.1] else .list [], st₁)
  else
    let nqp := match conf? with
      | some c => c.nameQueryParam.getD "name_exact"
      | none => "name_exact"
    let finalQuery := objSet queryParams nqp value
    match sendRequestST env st "GET" path none finalQuery [] with
    | .error e => .error e
    | .ok (res, st₁) => .ok (if res.1.isNull then .list [] else res.1, st₁)

mutual

/-- `ParameterResolver.resolve` (marketplace `resolver.py`, lines
153-226): same traversal as the openstack variant, plus an extra step
that copies a fresh tuple-key cache entry onto the bare name key for
declared top-level parameters after a primitive resolution. -/
def MP.resolve (env : Env) (fuel : Nat) (st : St) (paramName : String)
    (paramValue : Value) (outputFormat : String) : Except Failure (Value × St) :=
  match fuel with
  | 0 => .error .fuelExhausted
  | fuel + 1 =>
      match paramValue with
      | .obj fields =>
          match MP.resolveFields env fuel st fields outputFormat with
          | .error e => .error e
          | .ok (rfields, st₁) => .ok (.obj rfields, st₁)
      | .list items =>
          match lookupConf env paramName with
          | some conf =>
              if conf.isList then
                match MP.resolveListOfSingles env fuel st paramName items conf outputFormat with
                | .error e => .error e
                | .ok (ritems, st₁) => .ok (.list ritems, st₁)
              else
                match MP.resolveItems env fuel st paramName items outputFormat with
                | .error e => .error e
                | .ok (ritems, st₁) => .ok (.list ritems, st₁)
          | none =>
              match MP.resolveItems env fuel st paramName items outputFormat with
              | .error e => .error e
              | .ok (ritems, st₁) => .ok (.list ritems, st₁)
      | prim =>
          match lookupConf env paramName with
          | some conf =>
              match MP.resolveSingleValue env fuel st paramName prim conf outputFormat with
              | .error e => .error e
              | .ok (rv, st₁) =>
                  let st₂ :=
                    if paramDeclared env paramName then
                      match cacheGet st₁.cache (.pair paramName prim) with
                      | some obj =>
                          { st₁ with cache := cacheSet st₁.cache (.name paramName) obj }
                      | none => st₁
                    else st₁
                  .ok (rv, st₂)
          | none => .ok (prim, st)

/-- Walk a dict's entries, resolving each value under its key
(marketplace variant). -/
def MP.resolveFields (env : Env) (fuel : Nat) (st : St)
    (fields : List (String × Value)) (outputFormat : String) :
    Except Failure (List (String × Value) × St) :=
  match fuel with
  | 0 => .error .fuelExhausted
  | fuel + 1 =>
      match fields with
      | [] => .ok ([], st)
      | (k, v) :: tl =>
          match MP.resolve env fuel st k v outputFormat with
          | .error e => .error e
          | .ok (rv, st₁) =>
              match MP.resolveFields env fuel st₁ tl outputFormat with
              | .error e => .error e
              | .ok (rtl, st₂) => .ok ((k, rv) :: rtl, st₂)

/-- Walk a list of sub-structures, resolving each under the same
parameter name (marketplace variant). -/
def MP.resolveItems (env : Env) (fuel : Nat) (st : St) (paramName : String)
    (items : List Value) (outputFormat : String) :
    Except Failure (List Value × St) :=
  match fuel with
  | 0 => .error .fuelExhausted
  | fuel + 1 =>
      match items with
      | [] => .ok ([], st)
      | item :: tl =>
          match MP.resolve env fuel st paramName item outputFormat with
          | .error e => .error e
          | .ok (r, st₁) =>
              match MP.resolveItems env fuel st₁ paramName tl outputFormat with
              | .error e => .error e
              | .ok (rtl, st₂) => .ok (r :: rtl, st₂)

/-- The `is_list` case of the marketplace `resolve`: each item goes
through `_resolve_single_value` in order. -/
def MP.resolveListOfSingles (env : Env) (fuel : Nat) (st : St) (paramName : String)
    (items : List Value) (conf : ResolverConf) (outputFormat : String) :
    Except Failure (List Value × St) :=
  match fuel with
  | 0 => .error .fuelExhausted
  | fuel + 1 =>
      match items with
      | [] => .ok ([], st)
      | item :: tl =>
          match MP.resolveSingleValue env fuel st paramName item conf outputFormat with
          | .error e => .error e
          | .ok (r, st₁) =>
              match MP.resolveListOfSingles env fuel st₁ paramName tl conf outputFormat with
              | .error e => .error e
              | .ok (rtl, st₂) => .ok (r :: rtl, st₂)

/-- `ParameterResolver._resolve_single_value` (marketplace `resolver.py`,
lines 228-306): build the dependency filters, short-circuit on a
`(param_name, value)` cache hit, otherwise perform the lookup; zero
results fail with the templated not-found message, two or more results
fail fatally with the ambiguity message instructing the caller to use a
UUID; a successful lookup is cached under the tuple key and, for declared
module parameters, under the bare name key (which step 3 re-asserts on
every call, cache hit or miss). -/
def MP.resolveSingleValue (env : Env) (fuel : Nat) (st : St) (paramName : String)
    (value : Value) (conf : ResolverConf) (outputFormat : String) :
    Except Failure (Value × St) :=
  match fuel with
  | 0 => .error .fuelExhausted
  | fuel + 1 =>
      match MP.buildDependencyFilters env fuel st paramName conf.filterBy [] with
      | .error e => .error e
      | .ok (queryParams, st₀) =>
          match cacheGet st₀.cache (.pair paramName value) with
          | some resolvedObject =>
              let st₁ := if paramDeclared env paramName then
                  { st₀ with cache := cacheSet st₀.cache (.name paramName) resolvedObject }
                else st₀
              match formatResolvedValue conf outputFormat resolvedObject with
              | .error e => .error e
              | .ok out => .ok (out, st₁)
          | none =>
              match MP.resolveToList env st₀ conf.url value queryParams (some conf) with
              | .error e => .error e
              | .ok (resourceList, st₁) =>
                  if resourceList.truthy = false then
                    .error (.notFound (formatValueTemplate (confErrorTemplate conf) value))
                  else
                    match resourceList with
                    | .list (x :: rest) =>
                        if !rest.isEmpty then
                          .error (.ambiguous (ambiguousMsg value paramName (rest.length + 1)))
                        else
                          let cache₁ := cacheSet st₁.cache (.pair paramName value) x
                          let cache₂ := if paramDeclared env paramName
                            then cacheSet (cacheSet cache₁ (.name paramName) x)
                              (.name paramName) x
                            else cache₁
                          let st₂ := { st₁ with cache := cache₂ }
                          match formatResolvedValue conf outputFormat x with
                          | .error e => .error e
                          | .ok out => .ok (out, st₂)
                    | _ => .error (.pyTypeError "len() on a non-list response")

/-- `ParameterResolver._build_dependency_filters` (marketplace
`resolver.py`, lines 308-357): each dependency is satisfied from the
simple cache entry for its source parameter if present, else by resolving
the user's own supplied value for that parameter; when neither source is
available the dependency is SKIPPED (the filter is silently omitted, no
failure).  A satisfied source object missing the source key is fatal. -/
def MP.buildDependencyFilters (env : Env) (fuel : Nat) (st : St) (name : String)
    (dependencies : List FilterDep) (acc : List (String × Value)) :
    Except Failure (List (String × Value) × St) :=
  match fuel with
  | 0 => .error .fuelExhausted
  | fuel + 1 =>
      match dependencies with
      | [] => .ok (acc, st)
      | dep :: tl =>
          let step : Except Failure (Option Value × St) :=
            match cacheGet st.cache (.name dep.sourceParam) with
            | some so => .ok (some so, st)
            | none =>
                if (getParam env dep.sourceParam).isNull then .ok (none, st)
                else
                  match MP.resolve env fuel st dep.sourceParam
                      (getParam env dep.sourceParam) "create" with
                  | .error e => .error e
                  | .ok (_, st₁) => .ok (cacheGet st₁.cache (.name dep.sourceParam), st₁)
          match step with
          | .error e => .error e
          | .ok (so?, st₁) =>
              match so? with
              | some so =>
                  if so.truthy then
                    match pyGetAttr so dep.sourceKey with
                    | .error e => .error e
                    | .ok sv =>
                        if sv.isNull then
                          .error (.configError ("Could not find key '" ++ dep.sourceKey ++
                            "' in the cached response for '" ++ dep.sourceParam ++
                            "'. Available keys: " ++ pyKeysRepr so))
                        else MP.buildDependencyFilters env fuel st₁ name tl
                          (objSet acc dep.targetKey sv)
                  else MP.buildDependencyFilters env fuel st₁ name tl acc
              | none => MP.buildDependencyFilters env fuel st₁ name tl acc

end

/-- `ParameterResolver.resolve_to_url` (marketplace `resolver.py`, lines
81-151): a UUID constructs the detail URL directly with no request; a
fully-qualified URL is returned as-is; a cached `(param_name, value)`
entry short-circuits; otherwise one search with the configured name query
parameter runs, zero matches fail with the templated message, multiple
matches fail fatally instructing the caller to use a UUID, and a unique
match is cached under the tuple key (and the bare name for declared
parameters) before its URL is returned. -/
def MP.resolveToUrl (env : Env) (st : St) (paramName : String) (value : Value) :
    Except Failure (Value × St) :=
  match lookupConf env paramName with
  | none =>
      .error (.configError ("Configuration error: No resolver found for parameter '" ++
        paramName ++ "'."))
  | some conf =>
      if pyIsUuid value then
        .ok (.str (rstripSlash env.apiUrl ++ "/" ++ stripSlash conf.url ++ "/" ++
          value.pyStr ++ "/"), st)
      else if value.isHttpUrl then .ok (value, st)
      else
        match cacheGet st.cache (.pair paramName value) with
        | some obj =>
            match objUrl obj with
            | some u => .ok (u, st)
            | none => .error (.pyTypeError "KeyError: url")
        | none =>
            let nqp := conf.nameQueryParam.getD "name_exact"
            match sendRequestST env st "GET" conf.url none [(nqp, value)] [] with
            | .error e => .error e
            | .ok (res, st₁) =>
                if res.1.truthy = false then
                  .error (.notFound (formatValueTemplate (confErrorTemplate conf) value))
                else
                  match res.1 with
                  | .list (x :: rest) =>
                      if !rest.isEmpty then
                        .error (.ambiguous (ambiguousMsg value paramName (rest.length + 1)))
                      else
                        let cache₁ := cacheSet st₁.cache (.pair paramName value) x
                        let cache₂ := if paramDeclared env paramName
                          then cacheSet cache₁ (.name paramName) x else cache₁
                        let st₂ := { st₁ with cache := cache₂ }
                        match objUrl x with
                        | some u => .ok (u, st₂)
                        | none => .error (.pyTypeError "KeyError: url")
                  | _ => .error (.pyTypeError "len() on a non-list response")

/-- Storing under a bare-name key never disturbs a tuple-key lookup
(the two key shapes can never be equal). -/
theorem cacheGet_pair_cacheSet_name (c : List (CacheKey × Value)) (m : String)
    (w : Value) (n : String) (v : Value) :
    cacheGet (cacheSet c (.name m) w) (.pair n v) = cacheGet c (.pair n v) := by
  induction c with
  | nil => simp [cacheSet, cacheGet_cons, CacheKey.beq, cacheGet]
  | cons kv tl ih =>
      obtain ⟨k', v'⟩ := kv
      by_cases h : CacheKey.beq k' (.name m) = true
      · have hk' : CacheKey.beq k' (.pair n v) = false := by
          cases k' <;> simp_all [CacheKey.beq]
        simp [cacheSet, h, cacheGet_cons, hk']
      · simp [cacheSet, h, cacheGet_cons, ih]

/-- The resolved value of a successful resolver computation. -/
def resultValue (r : Except Failure (Value × St)) : Option Value :=
  match r with
  | .ok (v, _) => some v
  | .error _ => none

/-- The warnings recorded by a successful resolver computation. -/
def resultWarnings (r : Except Failure (Value × St)) : List String :=
  match r with
  | .ok (_, st) => st.warnings
  | .error _ => []

/-- A cache lookup in the state a successful resolver computation left
behind. -/
def resultCacheLookup (r : Except Failure (Value × St)) (k : CacheKey) : Option Value :=
  match r with
  | .ok (_, st) => cacheGet st.cache k
  | .error _ => none

/-- The request trace a successful resolver computation left behind. -/
def resultTrace (r : Except Failure (Value × St)) : List Request :=
  match r with
  | .ok (_, st) => st.trace
  | .error _ => []

/-- An empty runner context, for building concrete test environments. -/
def ctxEmpty : Ctx := ⟨[], "", [], none, [], [], none, none, ""⟩

/-- A backend whose network list endpoint returns two matches for any
name search, modelling a non-unique resource name. -/
def twoMatchBackend : Request → Option Value × Nat := fun req =>
  if req.method == "GET" && req.url == "https://api.test/api/networks/" then
    (some (.list [.obj [("url", .str "https://api.test/api/networks/net-1/")],
                  .obj [("url", .str "https://api.test/api/networks/net-2/")]]), 200)
  else (none, 404)

/-- A concrete environment where the name "dup" matches two networks. -/
def envTwoMatch : Env :=
  { params := [("name", .str "demo"), ("network", .str "dup"),
               ("state", .str "present")],
    apiUrl := "https://api.test",
    checkMode := false,
    ctx := { ctxEmpty with
               resolvers := [("network", ResolverConf.simple "/api/networks/")] },
    backend := twoMatchBackend }

/-- Counterexample to C1: in the openstack resolver's
`_resolve_single_value`, a name search returning two matches does NOT
fail with an ambiguity error — the run succeeds, silently resolving to
the FIRST match's URL, with only a warning recorded. -/
theorem os_ambiguity_not_fatal_counterexample :
    resultValue (OS.resolveSingleValue envTwoMatch St.initial "network" (.str "dup")
        (ResolverConf.simple "/api/networks/") "create") =
      some (.str "https://api.test/api/networks/net-1/") ∧
    resultWarnings (OS.resolveSingleValue envTwoMatch St.initial "network" (.str "dup")
        (ResolverConf.simple "/api/networks/") "create") =
      [multiWarnMsg (.str "dup") "network"] := by
  constructor <;> rfl

/-- C1 (amended): name-based resolution in `_resolve_single_value` with
zero matches fails with the templated NotFound message in BOTH resolver
variants; with two or more matches the MARKETPLACE variant fails fatally
with the ambiguity message instructing the caller to supply a UUID, while
the OPENSTACK variant does not fail — it records a warning and resolves
to the first match. -/
theorem resolve_single_value_match_count_behavior :
    (∀ (env : Env) (fuel : Nat) (st st₀ st₁ : St) (n : String) (v : Value)
        (conf : ResolverConf) (fmt : String) (q : List (String × Value)),
        MP.buildDependencyFilters env fuel st n conf.filterBy [] = .ok (q, st₀) →
        cacheGet st₀.cache (.pair n v) = none →
        MP.resolveToList env st₀ conf.url v q (some conf) = .ok (.list [], st₁) →
        MP.resolveSingleValue env (fuel + 1) st n v conf fmt =
          .error (.notFound (formatValueTemplate (confErrorTemplate conf) v)))
  ∧ (∀ (env : Env) (fuel : Nat) (st st₀ st₁ : St) (n : String) (v : Value)
        (conf : ResolverConf) (fmt : String) (q : List (String × Value))
        (x y : Value) (rest : List Value),
        MP.buildDependencyFilters env fuel st n conf.filterBy [] = .ok (q, st₀) →
        cacheGet st₀.cache (.pair n v) = none →
        MP.resolveToList env st₀ conf.url v q (some conf) =
          .ok (.list (x :: y :: rest), st₁) →
        MP.resolveSingleValue env (fuel + 1) st n v conf fmt =
          .error (.ambiguous (ambiguousMsg v n (rest.length + 2))))
  ∧ (∀ (env : Env) (st st₁ : St) (n : String) (v : Value)
        (conf : ResolverConf) (fmt : String) (q : List (String × Value)),
        OS.buildDependencyFilters env st n conf.filterBy [] = .ok q →
        cacheGet st.cache (.pair n v) = none →
        OS.resolveToList env st conf.url v q = .ok (.list [], st₁) →
        OS.resolveSingleValue env st n v conf fmt =
          .error (.notFound (formatValueTemplate (confErrorTemplate conf) v)))
  ∧ (∀ (env : Env) (st st₁ : St) (n : String) (v : Value)
        (conf : ResolverConf) (fmt : String) (q : List (String × Value))
        (x y : Value) (rest : List Value) (out : Value),
        OS.buildDependencyFilters env st n conf.filterBy [] = .ok q →
        cacheGet st.cache (.pair n v) = none →
        OS.resolveToList env st conf.url v q = .ok (.list (x :: y :: rest), st₁) →
        formatResolvedValue conf fmt x = .ok out →
        ∃ stF, OS.resolveSingleValue env st n v conf fmt = .ok (out, stF) ∧
          stF.warnings = st₁.warnings ++ [multiWarnMsg v n]) := by
  refine ⟨?_, ?_, ?_, ?_⟩
  · intro env fuel st st₀ st₁ n v conf fmt q h1 h2 h3
    simp [MP.resolveSingleValue, h1, h2, h3, Value.truthy]
  · intro env fuel st st₀ st₁ n v conf fmt q x y rest h1 h2 h3
    simp [MP.resolveSingleValue, h1, h2, h3, Value.truthy, ambiguousMsg]
  · intro env st st₁ n v conf fmt q h1 h2 h3
    simp [OS.resolveSingleValue, h1, h2, h3, Value.truthy]
  · intro env st st₁ n v conf fmt q x y rest out h1 h2 h3 h4
    refine ⟨{ addWarning st₁ (multiWarnMsg v n) with
        cache := if paramDeclared env n
          then cacheSet (cacheSet (addWarning st₁ (multiWarnMsg v n)).cache
            (.pair n v) x) (.name n) x
          else cacheSet (addWarning st₁ (multiWarnMsg v n)).cache (.pair n v) x },
      ?_, ?_⟩
    · simp [OS.resolveSingleValue, h1, h2, h3, h4, Value.truthy]
    · simp [addWarning]

/-- A backend whose project list endpoint returns zero matches for any
name search. -/
def zeroMatchBackend : Request → Option Value × Nat := fun req =>
  if req.method == "GET" && req.url == "https://api.test/api/projects/" then
    (some (.list []), 200)
  else (none, 404)

/-- A concrete environment where the name "ghost" matches no project. -/
def envZeroMatch : Env :=
  { params := [("state", .str "present")],
    apiUrl := "https://api.test",
    checkMode := false,
    ctx := { ctxEmpty with
               resolvers := [("project", ResolverConf.simple "/api/projects/")] },
    backend := zeroMatchBackend }

/-- The search request the zero-match scenario issues. -/
def reqProjects : Request :=
  ⟨"GET", "https://api.test/api/projects/", [("name_exact", .str "ghost")], none⟩

/-- The state after the zero-match search. -/
def stAfterProjects : St := ⟨[], none, false, [reqProjects], []⟩

/-- The search request the two-match scenario issues. -/
def reqNetworks : Request :=
  ⟨"GET", "https://api.test/api/networks/", [("name_exact", .str "dup")], none⟩

/-- The state after the two-match search. -/
def stAfterNetworks : St := ⟨[], none, false, [reqNetworks], []⟩

/-- First of the two matching network objects. -/
def netObj1 : Value := .obj [("url", .str "https://api.test/api/networks/net-1/")]

/-- Second of the two matching network objects. -/
def netObj2 : Value := .obj [("url", .str "https://api.test/api/networks/net-2/")]

/-- Witness for C1: concrete zero-match and two-match resolutions in both
resolver variants, exercising every hypothesis of the amended theorem. -/
theorem resolve_single_value_match_count_behavior_witness :
    MP.resolveSingleValue envZeroMatch 2 St.initial "project" (.str "ghost")
        (ResolverConf.simple "/api/projects/") "create" =
      .error (.notFound "Resource 'ghost' not found.") ∧
    MP.resolveSingleValue envTwoMatch 2 St.initial "network" (.str "dup")
        (ResolverConf.simple "/api/networks/") "create" =
      .error (.ambiguous (ambiguousMsg (.str "dup") "network" 2)) ∧
    OS.resolveSingleValue envZeroMatch St.initial "project" (.str "ghost")
        (ResolverConf.simple "/api/projects/") "create" =
      .error (.notFound "Resource 'ghost' not found.") ∧
    ∃ stF, OS.resolveSingleValue envTwoMatch St.initial "network" (.str "dup")
        (ResolverConf.simple "/api/networks/") "create" =
      .ok (.str "https://api.test/api/networks/net-1/", stF) ∧
      stF.warnings = [multiWarnMsg (.str "dup") "network"] :=
  ⟨resolve_single_value_match_count_behavior.1 envZeroMatch 1 St.initial St.initial
      stAfterProjects "project" (.str "ghost") (ResolverConf.simple "/api/projects/")
      "create" [] rfl rfl rfl,
   resolve_single_value_match_count_behavior.2.1 envTwoMatch 1 St.initial St.initial
      stAfterNetworks "network" (.str "dup") (ResolverConf.simple "/api/networks/")
      "create" [] netObj1 netObj2 [] rfl rfl rfl,
   resolve_single_value_match_count_behavior.2.2.1 envZeroMatch St.initial
      stAfterProjects "project" (.str "ghost") (ResolverConf.simple "/api/projects/")
      "create" [] rfl rfl rfl,
   resolve_single_value_match_count_behavior.2.2.2 envTwoMatch St.initial
      stAfterNetworks "network" (.str "dup") (ResolverConf.simple "/api/networks/")
      "create" [] netObj1 netObj2 [] (.str "https://api.test/api/networks/net-1/")
      rfl rfl rfl rfl⟩

/-- A `filter_by` dependency of `subnet` on `project`. -/
def depProject : FilterDep := ⟨"project", "uuid", "project_uuid"⟩

/-- Counterexample to C2: in the marketplace resolver's
`_build_dependency_filters`, a dependency whose source parameter is
neither in the cache nor supplied by the user does NOT fail with a
ConfigurationError: it returns successfully with the dependency filter
silently omitted. -/
theorem mp_dependency_skip_counterexample :
    MP.buildDependencyFilters envZeroMatch 3 St.initial "subnet" [depProject] [] =
      .ok ([], St.initial) := by
  rfl

/-- C2 (amended): a `filter_by` dependency is satisfied, in priority
order, from the simple cache entry for the source parameter, else (in the
marketplace variant) by resolving the user's own supplied value; but when
neither source is available the MARKETPLACE variant silently skips the
filter and continues, while the OPENSTACK variant (which never consults
user parameters) fails with the ConfigurationError. -/
theorem build_dependency_filters_priority_behavior :
    (∀ (env : Env) (fuel : Nat) (st : St) (name : String) (dep : FilterDep)
        (tl : List FilterDep) (acc : List (String × Value)) (so sv : Value),
        cacheGet st.cache (.name dep.sourceParam) = some so →
        so.truthy = true →
        pyGetAttr so dep.sourceKey = .ok sv →
        sv.isNull = false →
        MP.buildDependencyFilters env (fuel + 1) st name (dep :: tl) acc =
          MP.buildDependencyFilters env fuel st name tl (objSet acc dep.targetKey sv))
  ∧ (∀ (env : Env) (fuel : Nat) (st st₁ : St) (name : String) (dep : FilterDep)
        (tl : List FilterDep) (acc : List (String × Value)) (r so sv : Value),
        cacheGet st.cache (.name dep.sourceParam) = none →
        (getParam env dep.sourceParam).isNull = false →
        MP.resolve env fuel st dep.sourceParam (getParam env dep.sourceParam) "create" =
          .ok (r, st₁) →
        cacheGet st₁.cache (.name dep.sourceParam) = some so →
        so.truthy = true →
        pyGetAttr so dep.sourceKey = .ok sv →
        sv.isNull = false →
        MP.buildDependencyFilters env (fuel + 1) st name (dep :: tl) acc =
          MP.buildDependencyFilters env fuel st₁ name tl (objSet acc dep.targetKey sv))
  ∧ (∀ (env : Env) (fuel : Nat) (st : St) (name : String) (dep : FilterDep)
        (tl : List FilterDep) (acc : List (String × Value)),
        cacheGet st.cache (.name dep.sourceParam) = none →
        (getParam env dep.sourceParam).isNull = true →
        MP.buildDependencyFilters env (fuel + 1) st name (dep :: tl) acc =
          MP.buildDependencyFilters env fuel st name tl acc)
  ∧ (∀ (env : Env) (st : St) (name : String) (dep : FilterDep)
        (tl : List FilterDep) (acc : List (String × Value)),
        cacheGet st.cache (.name dep.sourceParam) = none →
        OS.buildDependencyFilters env st name (dep :: tl) acc =
          .error (.configError ("Configuration error: Resolver for '" ++ name ++
            "' depends on '" ++ dep.sourceParam ++
            "', which has not been resolved yet. This may be due to a missing parameter or an incorrect ordering in the module logic."))) := by
  refine ⟨?_, ?_, ?_, ?_⟩
  · intro env fuel st name dep tl acc so sv h1 h2 h3 h4
    simp [MP.buildDependencyFilters, h1, h2, h3, h4]
  · intro env fuel st st₁ name dep tl acc r so sv h1 h2 h3 h4 h5 h6 h7
    simp [MP.buildDependencyFilters, h1, h2, h3, h4, h5, h6, h7]
  · intro env fuel st name dep tl acc h1 h2
    simp [MP.buildDependencyFilters, h1, h2]
  · intro env st name dep tl acc h1
    simp [OS.buildDependencyFilters, h1]

/-- A backend with exactly one project named "proj-a". -/
def oneProjBackend : Request → Option Value × Nat := fun req =>
  if req.method == "GET" && req.url == "https://api.test/api/projects/" then
    (some (.list [.obj [("url", .str "https://api.test/api/projects/p1/"),
                        ("uuid", .str "u-1")]]), 200)
  else (none, 404)

/-- An environment where the user supplied `project: proj-a` and the
backend knows that project. -/
def envDepFallback : Env :=
  { params := [("project", .str "proj-a"), ("state", .str "present")],
    apiUrl := "https://api.test",
    checkMode := false,
    ctx := { ctxEmpty with
               resolvers := [("project", ResolverConf.simple "/api/projects/")] },
    backend := oneProjBackend }

/-- The single project object the backend returns. -/
def projObj : Value :=
  .obj [("url", .str "https://api.test/api/projects/p1/"), ("uuid", .str "u-1")]

/-- A state whose simple cache already holds the project (the update-flow
scenario). -/
def stCachedProj : St := ⟨[(.name "project", projObj)], none, false, [], []⟩

/-- The search request resolving `proj-a` issues. -/
def reqProjSearch : Request :=
  ⟨"GET", "https://api.test/api/projects/", [("name_exact", .str "proj-a")], none⟩

/-- The state after the project has been resolved from the user's own
parameter (create-flow scenario). -/
def stProjResolved : St :=
  ⟨[(.pair "project" (.str "proj-a"), projObj), (.name "project", projObj)],
   none, false, [reqProjSearch], []⟩

/-- Witness for C2: the dependency filter is built from the cache when
primed, from the user's supplied parameter otherwise, is silently skipped
by the marketplace variant when neither exists, and is fatal in the
openstack variant when the cache entry is missing. -/
theorem build_dependency_filters_priority_behavior_witness :
    MP.buildDependencyFilters envDepFallback 2 stCachedProj "subnet" [depProject] [] =
      .ok ([("project_uuid", .str "u-1")], stCachedProj) ∧
    MP.buildDependencyFilters envDepFallback 4 St.initial "subnet" [depProject] [] =
      .ok ([("project_uuid", .str "u-1")], stProjResolved) ∧
    MP.buildDependencyFilters envZeroMatch 2 St.initial "subnet" [depProject] [] =
      .ok ([], St.initial) ∧
    OS.buildDependencyFilters envZeroMatch St.initial "subnet" [depProject] [] =
      .error (.configError "Configuration error: Resolver for 'subnet' depends on 'project', which has not been resolved yet. This may be due to a missing parameter or an incorrect ordering in the module logic.") :=
  ⟨build_dependency_filters_priority_behavior.1 envDepFallback 1 stCachedProj
      "subnet" depProject [] [] projObj (.str "u-1") rfl rfl rfl rfl,
   build_dependency_filters_priority_behavior.2.1 envDepFallback 3 St.initial
      stProjResolved "subnet" depProject [] []
      (.str "https://api.test/api/projects/p1/") projObj (.str "u-1")
      rfl rfl rfl rfl rfl rfl rfl,
   build_dependency_filters_priority_behavior.2.2.1 envZeroMatch 1 St.initial
      "subnet" depProject [] [] rfl rfl,
   build_dependency_filters_priority_behavior.2.2.2 envZeroMatch St.initial
      "subnet" depProject [] [] rfl⟩

/-- A backend with one subnet named "private-a". -/
def oneSubnetBackend : Request → Option Value × Nat := fun req =>
  if req.method == "GET" && req.url == "https://api.test/api/subnets/" then
    (some (.list [.obj [("url", .str "https://api.test/api/subnets/s1/")]]), 200)
  else (none, 404)

/-- An environment resolving the NESTED parameter "subnet", which is not
a declared top-level module parameter. -/
def envNested : Env :=
  { params := [("state", .str "present"), ("name", .str "vm-1")],
    apiUrl := "https://api.test",
    checkMode := false,
    ctx := { ctxEmpty with
               resolvers := [("subnet", ResolverConf.simple "/api/subnets/")] },
    backend := oneSubnetBackend }

/-- The resolved subnet object. -/
def subnetObj : Value := .obj [("url", .str "https://api.test/api/subnets/s1/")]

/-- Counterexample to C7: a successful resolution of a parameter that is
not a declared top-level module parameter (here the nested "subnet" of a
ports entry) is cached under the `(name, value)` tuple key but NOT under
the bare name key, so the object is not stored "under both keys" for
every successful resolution. -/
theorem cache_bare_name_key_counterexample :
    resultValue (OS.resolveSingleValue envNested St.initial "subnet" (.str "private-a")
        (ResolverConf.simple "/api/subnets/") "create") =
      some (.str "https://api.test/api/subnets/s1/") ∧
    resultCacheLookup (OS.resolveSingleValue envNested St.initial "subnet"
        (.str "private-a") (ResolverConf.simple "/api/subnets/") "create")
        (.pair "subnet" (.str "private-a")) = some subnetObj ∧
    resultCacheLookup (OS.resolveSingleValue envNested St.initial "subnet"
        (.str "private-a") (ResolverConf.simple "/api/subnets/") "create")
        (.name "subnet") = none := by
  refine ⟨rfl, rfl, rfl⟩

/-- C7 (amended): a successful resolution stores the full resolved object
under the `(name, value)` tuple key always, and under the bare name key
exactly when the parameter is a declared top-level module parameter (last
resolution wins); a subsequent resolution of a cached `(name, value)`
pair performs zero backend lookups (the request trace does not grow). -/
theorem resolver_cache_round_trip :
    (∀ (env : Env) (st : St) (n : String) (v : Value) (conf : ResolverConf)
        (fmt : String) (q : List (String × Value)) (obj out : Value),
        OS.buildDependencyFilters env st n conf.filterBy [] = .ok q →
        cacheGet st.cache (.pair n v) = some obj →
        formatResolvedValue conf fmt obj = .ok out →
        OS.resolveSingleValue env st n v conf fmt = .ok (out, st))
  ∧ (∀ (env : Env) (fuel : Nat) (st st₀ : St) (n : String) (v : Value)
        (conf : ResolverConf) (fmt : String) (q : List (String × Value))
        (obj out : Value),
        MP.buildDependencyFilters env fuel st n conf.filterBy [] = .ok (q, st₀) →
        cacheGet st₀.cache (.pair n v) = some obj →
        formatResolvedValue conf fmt obj = .ok out →
        ∃ stF, MP.resolveSingleValue env (fuel + 1) st n v conf fmt = .ok (out, stF) ∧
          stF.trace = st₀.trace)
  ∧ (∀ (env : Env) (st st₁ : St) (n : String) (v : Value) (conf : ResolverConf)
        (fmt : String) (q : List (String × Value)) (x out : Value),
        OS.buildDependencyFilters env st n conf.filterBy [] = .ok q →
        cacheGet st.cache (.pair n v) = none →
        OS.resolveToList env st conf.url v q = .ok (.list [x], st₁) →
        formatResolvedValue conf fmt x = .ok out →
        ∃ stF, OS.resolveSingleValue env st n v conf fmt = .ok (out, stF) ∧
          cacheGet stF.cache (.pair n v) = some x ∧
          (paramDeclared env n = true → cacheGet stF.cache (.name n) = some x))
  ∧ (∀ (env : Env) (fuel : Nat) (st st₀ st₁ : St) (n : String) (v : Value)
        (conf : ResolverConf) (fmt : String) (q : List (String × Value))
        (x out : Value),
        MP.buildDependencyFilters env fuel st n conf.filterBy [] = .ok (q, st₀) →
        cacheGet st₀.cache (.pair n v) = none →
        MP.resolveToList env st₀ conf.url v q (some conf) = .ok (.list [x], st₁) →
        formatResolvedValue conf fmt x = .ok out →
        ∃ stF, MP.resolveSingleValue env (fuel + 1) st n v conf fmt = .ok (out, stF) ∧
          cacheGet stF.cache (.pair n v) = some x ∧
          (paramDeclared env n = true → cacheGet stF.cache (.name n) = some x)) := by
  refine ⟨?_, ?_, ?_, ?_⟩
  · intro env st n v conf fmt q obj out h1 h2 h3
    simp [OS.resolveSingleValue, h1, h2, h3]
  · intro env fuel st st₀ n v conf fmt q obj out h1 h2 h3
    by_cases hd : paramDeclared env n = true
    · exact ⟨{ st₀ with cache := cacheSet st₀.cache (.name n) obj },
        by simp [MP.resolveSingleValue, h1, h2, h3, hd], by simp⟩
    · exact ⟨st₀, by simp [MP.resolveSingleValue, h1, h2, h3, hd], rfl⟩
  · intro env st st₁ n v conf fmt q x out h1 h2 h3 h4
    by_cases hd : paramDeclared env n = true
    · refine ⟨{ st₁ with
          cache := cacheSet (cacheSet st₁.cache (.pair n v) x) (.name n) x },
        ?_, ?_, ?_⟩
      · simp [OS.resolveSingleValue, h1, h2, h3, h4, Value.truthy, hd]
      · simp [cacheGet_pair_cacheSet_name, cacheGet_cacheSet_self]
      · intro _
        simp [cacheGet_cacheSet_self]
    · refine ⟨{ st₁ with cache := cacheSet st₁.cache (.pair n v) x }, ?_, ?_, ?_⟩
      · simp [OS.resolveSingleValue, h1, h2, h3, h4, Value.truthy, hd]
      · simp [cacheGet_cacheSet_self]
      · intro hcontra
        exact absurd hcontra hd
  · intro env fuel st st₀ st₁ n v conf fmt q x out h1 h2 h3 h4
    by_cases hd : paramDeclared env n = true
    · refine ⟨{ st₁ with
          cache := cacheSet (cacheSet (cacheSet st₁.cache (.pair n v) x)
            (.name n) x) (.name n) x },
        ?_, ?_, ?_⟩
      · simp [MP.resolveSingleValue, h1, h2, h3, h4, Value.truthy, hd]
      · simp [cacheGet_pair_cacheSet_name, cacheGet_cacheSet_self]
      · intro _
        simp [cacheGet_cacheSet_self]
    · refine ⟨{ st₁ with cache := cacheSet st₁.cache (.pair n v) x }, ?_, ?_, ?_⟩
      · simp [MP.resolveSingleValue, h1, h2, h3, h4, Value.truthy, hd]
      · simp [cacheGet_cacheSet_self]
      · intro hcontra
        exact absurd hcontra hd

/-- A state whose cache already holds the `(network, dup)` tuple entry. -/
def stCachedPair : St := ⟨[(.pair "network" (.str "dup"), netObj1)], none, false, [], []⟩

/-- The search request resolving the subnet issues. -/
def reqSubnets : Request :=
  ⟨"GET", "https://api.test/api/subnets/", [("name_exact", .str "private-a")], none⟩

/-- The state after the subnet search. -/
def stAfterSubnets : St := ⟨[], none, false, [reqSubnets], []⟩

/-- The state after the project search (before any caching). -/
def stAfterProjSearch : St := ⟨[], none, false, [reqProjSearch], []⟩

/-- Witness for C7: a cache hit resolves with zero new requests in both
variants, and a cache miss stores the object under the tuple key (and the
bare name key for the declared top-level parameter "project"). -/
theorem resolver_cache_round_trip_witness :
    OS.resolveSingleValue envTwoMatch stCachedPair "network" (.str "dup")
        (ResolverConf.simple "/api/networks/") "create" =
      .ok (.str "https://api.test/api/networks/net-1/", stCachedPair) ∧
    (∃ stF, MP.resolveSingleValue envTwoMatch 2 stCachedPair "network" (.str "dup")
        (ResolverConf.simple "/api/networks/") "create" =
      .ok (.str "https://api.test/api/networks/net-1/", stF) ∧ stF.trace = []) ∧
    (∃ stF, OS.resolveSingleValue envNested St.initial "subnet" (.str "private-a")
        (ResolverConf.simple "/api/subnets/") "create" =
      .ok (.str "https://api.test/api/subnets/s1/", stF) ∧
      cacheGet stF.cache (.pair "subnet" (.str "private-a")) = some subnetObj ∧
      (paramDeclared envNested "subnet" = true →
        cacheGet stF.cache (.name "subnet") = some subnetObj)) ∧
    (∃ stF, MP.resolveSingleValue envDepFallback 2 St.initial "project" (.str "proj-a")
        (ResolverConf.simple "/api/projects/") "create" =
      .ok (.str "https://api.test/api/projects/p1/", stF) ∧
      cacheGet stF.cache (.pair "project" (.str "proj-a")) = some projObj ∧
      (paramDeclared envDepFallback "project" = true →
        cacheGet stF.cache (.name "project") = some projObj)) :=
  ⟨resolver_cache_round_trip.1 envTwoMatch stCachedPair "network" (.str "dup")
      (ResolverConf.simple "/api/networks/") "create" [] netObj1
      (.str "https://api.test/api/networks/net-1/") rfl rfl rfl,
   resolver_cache_round_trip.2.1 envTwoMatch 1 stCachedPair stCachedPair "network"
      (.str "dup") (ResolverConf.simple "/api/networks/") "create" [] netObj1
      (.str "https://api.test/api/networks/net-1/") rfl rfl rfl,
   resolver_cache_round_trip.2.2.1 envNested St.initial stAfterSubnets "subnet"
      (.str "private-a") (ResolverConf.simple "/api/subnets/") "create" [] subnetObj
      (.str "https://api.test/api/subnets/s1/") rfl rfl rfl rfl,
   resolver_cache_round_trip.2.2.2 envDepFallback 1 St.initial St.initial
      stAfterProjSearch "project" (.str "proj-a") (ResolverConf.simple "/api/projects/")
      "create" [] projObj (.str "https://api.test/api/projects/p1/") rfl rfl rfl rfl⟩

/-- C8: resolving a UUID-shaped value never issues a name search. The
marketplace `resolve_to_url` constructs the canonical URL directly from
the configured endpoint and the UUID with NO request at all; the
openstack `_resolve_to_list` performs exactly one direct GET of the
UUID's detail URL with an empty query string (so no `name_exact` filter
ever leaves the process) or aborts; and when that fetch returns no object
the resolution fails with the templated NotFound error. -/
theorem uuid_resolution_never_searches :
    (∀ (env : Env) (st : St) (n : String) (v : Value) (conf : ResolverConf),
        lookupConf env n = some conf →
        pyIsUuid v = true →
        MP.resolveToUrl env st n v =
          .ok (.str (rstripSlash env.apiUrl ++ "/" ++ stripSlash conf.url ++ "/" ++
            v.pyStr ++ "/"), st))
  ∧ (∀ (env : Env) (st : St) (path : String) (v : Value)
        (q : List (String × Value)),
        pyIsUuid v = true →
        (∃ rl, OS.resolveToList env st path v q =
            .ok (rl, { st with trace := st.trace ++
              [⟨"GET", buildUrl env (rstripSlash path ++ "/" ++ v.pyStr ++ "/"),
                [], none⟩] })) ∨
        (∃ e, OS.resolveToList env st path v q = .error e))
  ∧ (∀ (env : Env) (st : St) (n : String) (v : Value) (conf : ResolverConf)
        (fmt : String) (q : List (String × Value)),
        OS.buildDependencyFilters env st n conf.filterBy [] = .ok q →
        cacheGet st.cache (.pair n v) = none →
        pyIsUuid v = true →
        env.backend ⟨"GET", buildUrl env (rstripSlash conf.url ++ "/" ++
          v.pyStr ++ "/"), [], none⟩ = (none, 200) →
        OS.resolveSingleValue env st n v conf fmt =
          .error (.notFound (formatValueTemplate (confErrorTemplate conf) v))) := by
  refine ⟨?_, ?_, ?_⟩
  · intro env st n v conf h1 h2
    simp [MP.resolveToUrl, h1, h2]
  · intro env st path v q h1
    simp only [OS.resolveToList, h1, if_true, sendRequestOS, formatPath]
    rcases hbe : env.backend ⟨"GET", buildUrl env (rstripSlash path ++ "/" ++
      v.pyStr ++ "/"), [], none⟩ with ⟨b, code⟩
    by_cases hc : code = 200 ∨ code = 201 ∨ code = 202 ∨ code = 204
    · left
      cases b <;> simp [hbe, hc]
    · right
      simp [hbe, hc]
  · intro env st n v conf fmt q h1 h2 h3 hB
    simp [OS.resolveSingleValue, h1, h2, OS.resolveToList, h3, sendRequestOS,
      formatPath, hB, Value.truthy]

/-- A fixed UUID-shaped identifier. -/
def uuidStr : String := "11111111-2222-3333-4444-555555555555"

/-- The project object living at the UUID's detail URL. -/
def projObjU : Value :=
  .obj [("url", .str ("https://api.test/api/projects/" ++ uuidStr ++ "/"))]

/-- A backend that answers the UUID detail fetch and nothing else. -/
def uuidFetchBackend : Request → Option Value × Nat := fun req =>
  if req.method == "GET" &&
      req.url == "https://api.test/api/projects/" ++ uuidStr ++ "/" then
    (some projObjU, 200)
  else (none, 404)

/-- Environment for the UUID fetch scenario. -/
def envUuid : Env :=
  { params := [("state", .str "present")],
    apiUrl := "https://api.test",
    checkMode := false,
    ctx := { ctxEmpty with
               resolvers := [("project", ResolverConf.simple "/api/projects/")] },
    backend := uuidFetchBackend }

/-- A backend returning an empty 200 body for everything: the UUID
exists as a URL but the fetch returns no object. -/
def emptyBodyBackend : Request → Option Value × Nat := fun _ => (none, 200)

/-- Environment for the UUID-fetch-returns-nothing scenario. -/
def envUuidEmpty : Env :=
  { params := [("state", .str "present")],
    apiUrl := "https://api.test",
    checkMode := false,
    ctx := { ctxEmpty with
               resolvers := [("project", ResolverConf.simple "/api/projects/")] },
    backend := emptyBodyBackend }

/-- Witness for C8: a concrete UUID is resolved with no request at all by
the marketplace `resolve_to_url`, with exactly one query-free detail
fetch by the openstack `_resolve_to_list`, and the empty-fetch case fails
with the templated NotFound message. -/
theorem uuid_resolution_never_searches_witness :
    MP.resolveToUrl envUuid St.initial "project" (.str uuidStr) =
      .ok (.str ("https://api.test/api/projects/" ++ uuidStr ++ "/"), St.initial) ∧
    ((∃ rl, OS.resolveToList envUuid St.initial "/api/projects/" (.str uuidStr) [] =
        .ok (rl, { St.initial with trace := St.initial.trace ++
          [⟨"GET", buildUrl envUuid (rstripSlash "/api/projects/" ++ "/" ++
            (Value.str uuidStr).pyStr ++ "/"), [], none⟩] })) ∨
      (∃ e, OS.resolveToList envUuid St.initial "/api/projects/" (.str uuidStr) [] =
        .error e)) ∧
    OS.resolveSingleValue envUuidEmpty St.initial "project" (.str uuidStr)
        (ResolverConf.simple "/api/projects/") "create" =
      .error (.notFound ("Resource '" ++ uuidStr ++ "' not found.")) :=
  ⟨uuid_resolution_never_searches.1 envUuid St.initial "project" (.str uuidStr)
      (ResolverConf.simple "/api/projects/") rfl rfl,
   uuid_resolution_never_searches.2.1 envUuid St.initial "/api/projects/"
      (.str uuidStr) [] rfl,
   uuid_resolution_never_searches.2.2 envUuidEmpty St.initial "project"
      (.str uuidStr) (ResolverConf.simple "/api/projects/") "create" []
      rfl rfl rfl rfl⟩

/-- One detected simple-field change (`{"param": ..., "old": ..., "new": ...}`). -/
structure Change where
  param : String
  old : Value
  new : Value
deriving Repr

/-- The command objects of `command.py` as the openstack orchestrator
consumes them: Create (POST), Delete (DELETE, or POST-with-payload for
termination-style backends), Update (PATCH of changed scalars) and Action
(POST to a named action endpoint). -/
inductive Command where
  | create (path : String) (data : Value) (pathParams : List (String × Value))
  | delete (path : String) (resourceToDelete : Value) (data : Option Value)
      (pathParams : List (String × Value)) (method : String)
  | update (path : String) (changes : List Change) (pathParams : List (String × Value))
  | action (path : String) (data : Value) (paramName : String)
      (oldValue newValue : Value) (pathParams : List (String × Value))
deriving Repr

/-- `to_diff` of each command class (structure `command.py`): the pure,
request-free diff fragment rendered in check mode. -/
def Command.toDiff : Command → Value
  | .create _ data _ =>
      .obj [("state", .str "Resource will be created."), ("new_attributes", data)]
  | .delete _ resourceToDelete data _ _ =>
      match data with
      | some d =>
          .obj [("state", .str "Resource will be deleted."),
                ("old_attributes", resourceToDelete), ("termination_options", d)]
      | none =>
          .obj [("state", .str "Resource will be deleted."),
                ("old_attributes", resourceToDelete)]
  | .update _ changes _ =>
      .obj [("updated_attributes",
        .list (changes.map (fun c => .obj [("param", .str c.param),
          ("old", c.old), ("new", c.new)])))]
  | .action _ _ paramName oldValue newValue _ =>
      .obj [("action", .str paramName), ("old", oldValue), ("new", newValue)]

/-- Truthiness of the runner's `self.resource` attribute (`None` or a
value). -/
def resTruthy : Option Value → Bool
  | none => false
  | some v => v.truthy

/-- `d.get(k)` on the resource object, `None` when absent or not a
dict. -/
def resourceGet (r : Value) (k : String) : Value :=
  match r with
  | .obj fs => (objGet fs k).getD .null
  | _ => .null

/-- `len(value) > 1` for the sized values. -/
def pyLenGtOne : Value → Bool
  | .list (_ :: _ :: _) => true
  | .obj (_ :: _ :: _) => true
  | _ => false

/-- Is the `state` module parameter this exact string. -/
def stateIs (env : Env) (s : String) : Bool :=
  match getParam env "state" with
  | .str t => t == s
  | _ => false

/-- `self.module.params.get("wait", True)` with Python truthiness. -/
def waitParam (env : Env) : Bool :=
  match objGet env.params "wait" with
  | some v => v.truthy
  | none => true

/-- `self.resource.update(result)`: shallow dict merge (each key of the
update replaces the base's binding). -/
def pyDictUpdate (base updates : Value) : Value :=
  match base, updates with
  | .obj a, .obj b => .obj (b.foldl (fun acc kv => objSet acc kv.1 kv.2) a)
  | _, _ => base

/-- Split a character list on a separator. -/
def splitChars (sep : Char) : List Char → List (List Char)
  | [] => [[]]
  | c :: tl =>
      let r := splitChars sep tl
      if c == sep then [] :: r
      else
        match r with
        | [] => [[c]]
        | s :: rest => (c :: s) :: rest

/-- `url.strip("/").split("/")[-1]`: the last path segment, used to pull
a UUID out of a resolved URL. -/
def lastSegment (s : String) : String :=
  match (splitChars '/' (stripSlash s).data).getLast? with
  | some cs => String.mk cs
  | none => ""

/-- The write requests (anything but GET) of a trace. -/
def writeRequests (tr : List Request) : List Request :=
  tr.filter (fun r => !(r.method == "GET"))

/-- The loop of `check_existence` over `check_filter_keys`: each truthy
context parameter is resolved via `resolve_to_url` and its trailing UUID
becomes a query filter. -/
def OS.existenceFilters (env : Env) (st : St) (filterKeys : List (String × String))
    (query : List (String × Value)) : Except Failure (List (String × Value) × St) :=
  match filterKeys with
  | [] => .ok (query, st)
  | (paramName, filterKey) :: tl =>
      if (getParam env paramName).truthy then
        match OS.resolveToUrl env st paramName (getParam env paramName) with
        | .error e => .error e
        | .ok (resolvedUrl, st₁) =>
            if resolvedUrl.truthy then
              OS.existenceFilters env st₁ tl
                (objSet query filterKey (.str (lastSegment resolvedUrl.pyStr)))
            else OS.existenceFilters env st₁ tl query
      else OS.existenceFilters env st tl query

/-- `BaseRunner.check_existence` (openstack `base_runner.py`, lines
660-711): search the check endpoint by exact name plus the resolved
context filters; more than one match is fatal; one match (or a direct
object response) becomes `self.resource`, zero matches clear it. -/
def OS.checkExistence (env : Env) (st : St) : Except Failure St :=
  let identifierValue := getParam env "name"
  match OS.existenceFilters env st env.ctx.checkFilterKeys
      [("name_exact", identifierValue)] with
  | .error e => .error e
  | .ok (query, st₁) =>
      match sendRequestOS env st₁ "GET" env.ctx.checkUrl none query [] with
      | .error e => .error e
      | .ok (res, st₂) =>
          if res.1.truthy && pyLenGtOne res.1 then
            .error (.failJson ("Multiple resources found for '" ++
              identifierValue.pyStr ++ "'. The first one will be used."))
          else
            match res.1 with
            | .list xs => .ok { st₂ with resource := xs.head? }
            | .obj fs => .ok { st₂ with resource := some (.obj fs) }
            | _ => .ok { st₂ with resource := none }

/-- Does a state-field value match one of the configured state names
(`current_state in ok_states`). -/
def stateMatches (v : Value) (states : List String) : Bool :=
  match v with
  | .str s => states.contains s
  | _ => false

/-- The polling loop of `_wait_for_resource_state` (openstack
`base_runner.py`, lines 284-311): each iteration fetches the resource's
detail view; a 404 status (were it ever delivered) would clear the
resource and succeed; an OK state keeps the polled object; an erred state
is fatal; `polls` models the `timeout/interval` budget, whose exhaustion
is fatal. -/
def OS.waitPoll (env : Env) (polls : Nat) (st : St) (wc : WaitConfig)
    (pollingPath : String) (resourceUuid : String) : Except Failure St :=
  match polls with
  | 0 => .error (.pollTimeout ("Timeout waiting for resource " ++ resourceUuid ++
      " to become stable."))
  | polls + 1 =>
      match sendRequestOS env st "GET" pollingPath none []
          [("uuid", .str resourceUuid)] with
      | .error e => .error e
      | .ok (res, st₁) =>
          if res.2 == 404 then .ok { st₁ with resource := none }
          else if res.1.truthy then
            let currentState := resourceGet res.1 wc.stateField
            if stateMatches currentState wc.okStates then
              .ok { st₁ with resource := some res.1 }
            else if stateMatches currentState wc.erredStates then
              .error (.taskErred currentState.pyStr)
            else OS.waitPoll env polls st₁ wc pollingPath resourceUuid
          else OS.waitPoll env polls st₁ wc pollingPath resourceUuid

/-- `BaseRunner._wait_for_resource_state` (openstack `base_runner.py`,
lines 255-311): validate the wait configuration and the polling path,
then run the bounded polling loop. -/
def OS.waitForResourceState (env : Env) (polls : Nat) (st : St)
    (resourceUuid : String) : Except Failure St :=
  match env.ctx.waitConfig with
  | none => .error (.failJson "Runner Error: _wait_for_resource_state called but 'wait_config' is not defined in the runner context.")
  | some wc =>
      match env.ctx.resourceDetailPath with
      | none => .error (.failJson "Runner Error: 'resource_detail_path' is required in runner context for waiting.")
      | some pollingPath => OS.waitPoll env polls st wc pollingPath resourceUuid

/-- The command loop of `execute_change_plan` (openstack
`base_runner.py`, lines 109-131): execute each command in order, updating
`self.resource` according to the command's class, triggering the waiter
for asynchronous (202) actions and accumulating the needs-refetch flag
for synchronous ones. -/
def executeCommands (env : Env) (polls : Nat) (st : St) (needsRefetch : Bool) :
    List Command → Except Failure (Bool × St)
  | [] => .ok (needsRefetch, st)
  | cmd :: tl =>
      match cmd with
      | .create path data pp =>
          match sendRequestOS env st "POST" path (some data) [] pp with
          | .error e => .error e
          | .ok (res, st₁) =>
              executeCommands env polls { st₁ with resource := some res.1 }
                needsRefetch tl
      | .update path changes pp =>
          let payload := Value.obj (changes.map (fun c => (c.param, c.new)))
          match sendRequestOS env st "PATCH" path (some payload) [] pp with
          | .error e => .error e
          | .ok (res, st₁) =>
              let newResource :=
                if resTruthy st₁.resource && res.1.truthy then
                  some (pyDictUpdate ((st₁.resource).getD .null) res.1)
                else st₁.resource
              executeCommands env polls { st₁ with resource := newResource }
                needsRefetch tl
      | .delete path _ data pp method =>
          match sendRequestOS env st method path data [] pp with
          | .error e => .error e
          | .ok (_, st₁) =>
              executeCommands env polls { st₁ with resource := none }
                needsRefetch tl
      | .action path data _ _ _ pp =>
          match sendRequestOS env st "POST" path (some data) [] pp with
          | .error e => .error e
          | .ok (res, st₁) =>
              if res.2 == 202 && waitParam env && env.ctx.waitConfig.isSome then
                match OS.waitForResourceState env polls st₁
                    (resourceGet ((st₁.resource).getD .null) "uuid").pyStr with
                | .error e => .error e
                | .ok st₂ => executeCommands env polls st₂ needsRefetch tl
              else executeCommands env polls st₁ true tl

/-- `BaseRunner.execute_change_plan` (openstack `base_runner.py`, lines
98-134): an empty plan is a no-op; otherwise `has_changed` is set, the
commands run in order, and a final existence re-check runs when some
synchronous action asked for a refetch. -/
def executeChangePlan (env : Env) (polls : Nat) (st : St) (plan : List Command) :
    Except Failure St :=
  if plan.isEmpty then .ok st
  else
    match executeCommands env polls { st with hasChanged := true } false plan with
    | .error e => .error e
    | .ok (needsRefetch, st₁) =>
        if needsRefetch then OS.checkExistence env st₁ else .ok st₁

/-- What the module reports on exit: the changed flag, the final
resource, and the rendered diff fragments. -/
structure ExitResult where
  changed : Bool
  resource : Option Value
  diff : List Value
deriving Repr

/-- The abstract planning interface `BaseRunner.run` delegates to: the
three planner methods a concrete runner implements. -/
structure Driver where
  planCreation : Env → St → Except Failure (List Command × St)
  planUpdate : Env → St → Except Failure (List Command × St)
  planDeletion : Env → St → Except Failure (List Command × St)

/-- Step 2 of `BaseRunner.run` (openstack `base_runner.py`, lines 76-85):
select the planner by the product of desired state and existence; any
unmatched combination leaves the initial empty plan. -/
def selectPlan (drv : Driver) (env : Env) (st : St) :
    Except Failure (List Command × St) :=
  if resTruthy st.resource then
    if stateIs env "present" then drv.planUpdate env st
    else if stateIs env "absent" then drv.planDeletion env st
    else .ok ([], st)
  else
    if stateIs env "present" then drv.planCreation env st
    else .ok ([], st)

/-- Steps 3-5 of `BaseRunner.run` (openstack `base_runner.py`, lines
87-96 with `handle_check_mode`, lines 136-143): in check mode the plan is
only rendered (each command's `to_diff`), never executed; in live mode
the plan is executed and the final state reported. -/
def finishRun (env : Env) (polls : Nat)
    (planRes : Except Failure (List Command × St)) :
    Except Failure (ExitResult × St) :=
  match planRes with
  | .error e => .error e
  | .ok (plan, st₁) =>
      if env.checkMode then
        let st₂ := if plan.isEmpty then st₁ else { st₁ with hasChanged := true }
        .ok (⟨st₂.hasChanged, st₂.resource, plan.map Command.toDiff⟩, st₂)
      else
        match executeChangePlan env polls st₁ plan with
        | .error e => .error e
        | .ok st₂ => .ok (⟨st₂.hasChanged, st₂.resource, plan.map Command.toDiff⟩, st₂)

/-- `BaseRunner.run` (openstack `base_runner.py`, lines 60-96): check
existence, select and build the plan from the desired state and the
resource's presence, then hand off to check-mode rendering or live
execution. -/
def runOrch (drv : Driver) (env : Env) (polls : Nat) (st : St) :
    Except Failure (ExitResult × St) :=
  match OS.checkExistence env st with
  | .error e => .error e
  | .ok st₁ => finishRun env polls (selectPlan drv env st₁)

/-- A backend answering 404 to everything: the polled object is gone. -/
def always404Backend : Request → Option Value × Nat := fun _ => (none, 404)

/-- The default wait configuration. -/
def wcDefault : WaitConfig := ⟨["OK"], ["Erred"], "state"⟩

/-- A deletion-flow environment whose resource has already disappeared:
every poll of the detail endpoint returns HTTP 404. -/
def env404 : Env :=
  { params := [("state", .str "absent"), ("name", .str "vm-1")],
    apiUrl := "https://api.test",
    checkMode := false,
    ctx := { ctxEmpty with
               waitConfig := some wcDefault,
               resourceDetailPath := some "/api/instances/\x7buuid\x7d/" },
    backend := always404Backend }

/-- C3 (code bug): a 404 on a mid-poll fetch does NOT make the run
succeed with the resource cleared — `send_request` fails the module
(BackendError) on any status outside 200/201/202/204 before
`_wait_for_resource_state` can reach its dedicated 404-success branch.
Part one shows the branch is dead code: every successful `send_request`
carries a whitelisted 2xx status, so the `status_code == 404` test can
never be true.  Part two evaluates a concrete deletion-flow poll whose
fetch returns 404: the run aborts with the backend error instead of
succeeding with `resource = None` as the specification (and the code's
own comment) intends. -/
theorem wait_poll_404_is_dead_code :
    (∀ (env : Env) (st : St) (m p : String) (d : Option Value)
        (q : List (String × Value)) (pp : List (String × Value))
        (b : Value) (code : Nat) (st' : St),
        sendRequestOS env st m p d q pp = .ok ((b, code), st') →
        code = 200 ∨ code = 201 ∨ code = 202 ∨ code = 204)
  ∧ OS.waitForResourceState env404 5 St.initial "u-1" =
      .error (.backendError 404 "https://api.test/api/instances/u-1/") := by
  constructor
  · intro env st m p d q pp b code st' h
    unfold sendRequestOS at h
    match hf : formatPath p pp with
    | .error e => rw [hf] at h; exact absurd h (by simp)
    | .ok fpath =>
        rw [hf] at h
        simp only at h
        split at h
        · rename_i hcond
          split at h
          · rw [Except.ok.injEq, Prod.mk.injEq, Prod.mk.injEq] at h
            rcases h with ⟨⟨_, hcode⟩, _⟩
            rw [hcode] at hcond
            exact hcond
          · rw [Except.ok.injEq, Prod.mk.injEq, Prod.mk.injEq] at h
            rcases h with ⟨⟨_, hcode⟩, _⟩
            rw [hcode] at hcond
            exact hcond
        · exact absurd h (by simp)
  · rfl

/-- Witness for C3: a concrete successful `send_request` has a
whitelisted status, and the concrete 404 poll aborts with the backend
error. -/
theorem wait_poll_404_is_dead_code_witness :
    (200 = 200 ∨ 200 = 201 ∨ 200 = 202 ∨ 200 = 204) ∧
    OS.waitForResourceState env404 5 St.initial "u-1" =
      .error (.backendError 404 "https://api.test/api/instances/u-1/") :=
  ⟨wait_poll_404_is_dead_code.1 envZeroMatch St.initial "GET" "/api/projects/"
      none [] [] (.list []) 200
      ⟨[], none, false, [⟨"GET", "https://api.test/api/projects/", [], none⟩], []⟩ rfl,
   wait_poll_404_is_dead_code.2⟩

/-- Matching the `state` parameter against "absent" excludes "present". -/
theorem stateIs_absent_not_present (env : Env) (h : stateIs env "absent" = true) :
    stateIs env "present" = false := by
  cases hv : getParam env "state" with
  | str t =>
      simp only [stateIs, hv, beq_iff_eq] at h
      simp only [stateIs, hv]
      subst h
      decide
  | null => simp [stateIs, hv] at h
  | bool b => simp [stateIs, hv] at h
  | int n => simp [stateIs, hv] at h
  | list xs => simp [stateIs, hv] at h
  | obj fs => simp [stateIs, hv] at h

/-- C5: `run` branches exactly on the product of desired state and
existence — present+absent hands the plan to `plan_creation`,
present+present to `plan_update`, absent+present to `plan_deletion`, and
absent+absent builds no plan and issues no further request: the run ends
immediately with the unchanged state left by the existence check. -/
theorem run_branches_on_state_and_existence :
    ∀ (drv : Driver) (env : Env) (polls : Nat) (st st₁ : St),
    OS.checkExistence env st = .ok st₁ →
    ((resTruthy st₁.resource = false → stateIs env "present" = true →
        runOrch drv env polls st = finishRun env polls (drv.planCreation env st₁)) ∧
     (resTruthy st₁.resource = true → stateIs env "present" = true →
        runOrch drv env polls st = finishRun env polls (drv.planUpdate env st₁)) ∧
     (resTruthy st₁.resource = true → stateIs env "absent" = true →
        runOrch drv env polls st = finishRun env polls (drv.planDeletion env st₁)) ∧
     (resTruthy st₁.resource = false → stateIs env "absent" = true →
        runOrch drv env polls st = .ok (⟨st₁.hasChanged, st₁.resource, []⟩, st₁))) := by
  intro drv env polls st st₁ h1
  have hrun : runOrch drv env polls st = finishRun env polls (selectPlan drv env st₁) := by
    simp [runOrch, h1]
  refine ⟨?_, ?_, ?_, ?_⟩
  · intro hres hstate
    rw [hrun]
    simp [selectPlan, hres, hstate]
  · intro hres hstate
    rw [hrun]
    simp [selectPlan, hres, hstate]
  · intro hres hstate
    rw [hrun]
    simp [selectPlan, hres, hstate, stateIs_absent_not_present env hstate]
  · intro hres hstate
    rw [hrun]
    simp only [selectPlan, hres, stateIs_absent_not_present env hstate,
      Bool.false_eq_true, if_false]
    by_cases hcm : env.checkMode = true <;>
      simp [finishRun, executeChangePlan, hcm]

/-- A concrete existing instance object. -/
def instObj : Value := .obj [("uuid", .str "u-1"), ("name", .str "vm-1")]

/-- Context with only the existence-check endpoint configured. -/
def ctxCheck : Ctx := { ctxEmpty with checkUrl := "/api/instances/" }

/-- Backend on which the instance does not exist. -/
def absentBackend : Request → Option Value × Nat := fun req =>
  if req.method == "GET" && req.url == "https://api.test/api/instances/" then
    (some (.list []), 200)
  else (none, 404)

/-- Backend on which the instance exists. -/
def presentBackend : Request → Option Value × Nat := fun req =>
  if req.method == "GET" && req.url == "https://api.test/api/instances/" then
    (some (.list [instObj]), 200)
  else (none, 404)

/-- Desired present, resource absent. -/
def envPA : Env :=
  { params := [("name", .str "vm-1"), ("state", .str "present")],
    apiUrl := "https://api.test", checkMode := false, ctx := ctxCheck,
    backend := absentBackend }

/-- Desired present, resource present. -/
def envPP : Env :=
  { params := [("name", .str "vm-1"), ("state", .str "present")],
    apiUrl := "https://api.test", checkMode := false, ctx := ctxCheck,
    backend := presentBackend }

/-- Desired absent, resource present. -/
def envAP : Env :=
  { params := [("name", .str "vm-1"), ("state", .str "absent")],
    apiUrl := "https://api.test", checkMode := false, ctx := ctxCheck,
    backend := presentBackend }

/-- Desired absent, resource absent. -/
def envAA : Env :=
  { params := [("name", .str "vm-1"), ("state", .str "absent")],
    apiUrl := "https://api.test", checkMode := false, ctx := ctxCheck,
    backend := absentBackend }

/-- The existence-check request those environments issue. -/
def reqCheck : Request :=
  ⟨"GET", "https://api.test/api/instances/", [("name_exact", .str "vm-1")], none⟩

/-- State after the existence check found nothing. -/
def stCheckedAbsent : St := ⟨[], none, false, [reqCheck], []⟩

/-- State after the existence check found the instance. -/
def stCheckedPresent : St := ⟨[], some instObj, false, [reqCheck], []⟩

/-- A fixed creation command for the trivial driver. -/
def cmdC : Command := .create "/api/instances/" (.obj [("name", .str "vm-1")]) []

/-- A fixed update command for the trivial driver. -/
def cmdU : Command :=
  .update "/api/instances/\x7buuid\x7d/" [⟨"description", .null, .str "d"⟩]
    [("uuid", .str "u-1")]

/-- A fixed deletion command for the trivial driver. -/
def cmdD : Command :=
  .delete "/api/instances/\x7buuid\x7d/" instObj none [("uuid", .str "u-1")] "DELETE"

/-- A driver whose planners return fixed plans without touching state. -/
def trivialDriver : Driver :=
  ⟨fun _ st => .ok ([cmdC], st),
   fun _ st => .ok ([cmdU], st),
   fun _ st => .ok ([cmdD], st)⟩

/-- Witness for C5: the four concrete state-by-existence combinations.
The absent+absent run ends unchanged, with no plan and only the
read-only existence request in its trace. -/
theorem run_branches_on_state_and_existence_witness :
    runOrch trivialDriver envPA 3 St.initial =
      finishRun envPA 3 (trivialDriver.planCreation envPA stCheckedAbsent) ∧
    runOrch trivialDriver envPP 3 St.initial =
      finishRun envPP 3 (trivialDriver.planUpdate envPP stCheckedPresent) ∧
    runOrch trivialDriver envAP 3 St.initial =
      finishRun envAP 3 (trivialDriver.planDeletion envAP stCheckedPresent) ∧
    runOrch trivialDriver envAA 3 St.initial =
      .ok (⟨false, none, []⟩, stCheckedAbsent) :=
  ⟨(run_branches_on_state_and_existence trivialDriver envPA 3 St.initial
      stCheckedAbsent rfl).1 rfl rfl,
   (run_branches_on_state_and_existence trivialDriver envPP 3 St.initial
      stCheckedPresent rfl).2.1 rfl rfl,
   (run_branches_on_state_and_existence trivialDriver envAP 3 St.initial
      stCheckedPresent rfl).2.2.1 rfl rfl,
   (run_branches_on_state_and_existence trivialDriver envAA 3 St.initial
      stCheckedAbsent rfl).2.2.2 rfl rfl⟩

/-- Appending a GET request leaves the write-request projection of a
trace unchanged. -/
theorem writeRequests_append_get (tr : List Request) (r : Request)
    (h : r.method = "GET") : writeRequests (tr ++ [r]) = writeRequests tr := by
  simp [writeRequests, List.filter_append, h]

/-- A successful GET through `send_request` adds no write request to the
trace. -/
theorem sendRequestOS_get_writes (env : Env) (st : St) (p : String)
    (d : Option Value) (q : List (String × Value)) (pp : List (String × Value))
    (res : Value × Nat) (st' : St)
    (h : sendRequestOS env st "GET" p d q pp = .ok (res, st')) :
    writeRequests st'.trace = writeRequests st.trace := by
  unfold sendRequestOS at h
  match hf : formatPath p pp with
  | .error e => rw [hf] at h; exact absurd h (by simp)
  | .ok fpath =>
      rw [hf] at h
      simp only at h
      split at h
      · split at h <;>
        · rw [Except.ok.injEq, Prod.mk.injEq] at h
          rw [← h.2]
          exact writeRequests_append_get st.trace _ rfl
      · exact absurd h (by simp)

/-- The trace of the state `resolve_to_url` leaves behind has the same
write requests as the input state (its only request is a GET). -/
theorem resolveToUrl_writes (env : Env) (st : St) (n : String) (v u : Value)
    (st' : St) (h : OS.resolveToUrl env st n v = .ok (u, st')) :
    writeRequests st'.trace = writeRequests st.trace := by
  unfold OS.resolveToUrl at h
  match hconf : lookupConf env n with
  | none => rw [hconf] at h; exact absurd h (by simp)
  | some conf =>
      rw [hconf] at h
      simp only at h
      by_cases hu : pyIsUuid v = true
      · rw [if_pos hu] at h
        rw [Except.ok.injEq, Prod.mk.injEq] at h
        rw [← h.2]
      · rw [if_neg hu] at h
        match hsr : sendRequestOS env st "GET" conf.url none [("name_exact", v)] [] with
        | .error e => rw [hsr] at h; exact absurd h (by simp)
        | .ok (res, st₁) =>
            rw [hsr] at h
            have htr : writeRequests st₁.trace = writeRequests st.trace :=
              sendRequestOS_get_writes env st conf.url none [("name_exact", v)] []
                res st₁ hsr
            simp only at h
            split at h
            · exact absurd h (by simp)
            · match hres : res.1 with
              | .list (x :: rest) =>
                  rw [hres] at h
                  simp only at h
                  match hurl : objUrl x with
                  | some u' =>
                      simp only [hurl] at h
                      rw [Except.ok.injEq, Prod.mk.injEq] at h
                      rw [← h.2]
                      by_cases hre : rest.isEmpty = true
                      · simp [hre, htr]
                      · simp [hre, addWarning, htr]
                  | none =>
                      simp only [hurl] at h
                      exact absurd h (by simp)
              | .list [] => rw [hres] at h; exact absurd h (by simp)
              | .null => rw [hres] at h; exact absurd h (by simp)
              | .bool b => rw [hres] at h; exact absurd h (by simp)
              | .int k => rw [hres] at h; exact absurd h (by simp)
              | .str s => rw [hres] at h; exact absurd h (by simp)
              | .obj fs => rw [hres] at h; exact absurd h (by simp)

/-- The existence-filter loop only issues GET requests. -/
theorem existenceFilters_writes :
    ∀ (fk : List (String × String)) (env : Env) (st : St)
      (query q' : List (String × Value)) (st' : St),
    OS.existenceFilters env st fk query = .ok (q', st') →
    writeRequests st'.trace = writeRequests st.trace := by
  intro fk
  induction fk with
  | nil =>
      intro env st query q' st' h
      simp only [OS.existenceFilters, Except.ok.injEq, Prod.mk.injEq] at h
      rw [← h.2]
  | cons kv tl ih =>
      intro env st query q' st' h
      obtain ⟨paramName, filterKey⟩ := kv
      unfold OS.existenceFilters at h
      split at h
      · match hr : OS.resolveToUrl env st paramName (getParam env paramName) with
        | .error e => rw [hr] at h; exact absurd h (by simp)
        | .ok (ru, st₁) =>
            rw [hr] at h
            simp only at h
            have h1 := resolveToUrl_writes env st paramName _ ru st₁ hr
            split at h
            · exact (ih env st₁ _ q' st' h).trans h1
            · exact (ih env st₁ _ q' st' h).trans h1
      · exact ih env st query q' st' h

/-- The existence check only issues GET requests: the write requests of
the state it leaves behind are those of the state it started from. -/
theorem checkExistence_writes (env : Env) (st st' : St)
    (h : OS.checkExistence env st = .ok st') :
    writeRequests st'.trace = writeRequests st.trace := by
  unfold OS.checkExistence at h
  simp only at h
  match hf : OS.existenceFilters env st env.ctx.checkFilterKeys
      [("name_exact", getParam env "name")] with
  | .error e => rw [hf] at h; exact absurd h (by simp)
  | .ok (query, st₁) =>
      rw [hf] at h
      simp only at h
      match hs : sendRequestOS env st₁ "GET" env.ctx.checkUrl none query [] with
      | .error e => rw [hs] at h; exact absurd h (by simp)
      | .ok (res, st₂) =>
          rw [hs] at h
          simp only at h
          have h2 := sendRequestOS_get_writes env st₁ _ none query [] res st₂ hs
          have h1 := existenceFilters_writes _ env st _ query st₁ hf
          split at h
          · exact absurd h (by simp)
          · split at h <;>
            · rw [Except.ok.injEq] at h
              rw [← h]
              simpa using h2.trans h1

/-- C6: in check mode the orchestrator never executes a command and never
sends a write request.  Provided the driver's planners only issue reads
(they add no write request to the trace — true of the concrete planners,
which only consult the resolver), a check-mode run leaves the trace's
write requests untouched, the trace is frozen at the planning stage (no
command's request is ever issued), and the reported diff is exactly the
pure `to_diff` rendering of the planned commands. -/
theorem check_mode_never_writes :
    ∀ (drv : Driver) (env : Env) (polls : Nat) (st : St),
    env.checkMode = true →
    (∀ (st' : St) (plan : List Command) (st'' : St),
        drv.planCreation env st' = .ok (plan, st'') →
        writeRequests st''.trace = writeRequests st'.trace) →
    (∀ (st' : St) (plan : List Command) (st'' : St),
        drv.planUpdate env st' = .ok (plan, st'') →
        writeRequests st''.trace = writeRequests st'.trace) →
    (∀ (st' : St) (plan : List Command) (st'' : St),
        drv.planDeletion env st' = .ok (plan, st'') →
        writeRequests st''.trace = writeRequests st'.trace) →
    ∀ (res : ExitResult) (stF : St),
    runOrch drv env polls st = .ok (res, stF) →
    writeRequests stF.trace = writeRequests st.trace ∧
    ∃ (st₁ : St) (plan : List Command) (stP : St),
      OS.checkExistence env st = .ok st₁ ∧
      selectPlan drv env st₁ = .ok (plan, stP) ∧
      res.diff = plan.map Command.toDiff ∧
      stF.trace = stP.trace := by
  intro drv env polls st hcm hC hU hD res stF h
  unfold runOrch at h
  match hce : OS.checkExistence env st with
  | .error e => rw [hce] at h; exact absurd h (by simp)
  | .ok st₁ =>
      rw [hce] at h
      simp only at h
      match hsp : selectPlan drv env st₁ with
      | .error e =>
          rw [hsp] at h
          unfold finishRun at h
          exact absurd h (by simp)
      | .ok (plan, stP) =>
          rw [hsp] at h
          unfold finishRun at h
          simp only at h
          rw [if_pos hcm] at h
          have hplanW : writeRequests stP.trace = writeRequests st₁.trace := by
            unfold selectPlan at hsp
            split at hsp
            · split at hsp
              · exact hU st₁ plan stP hsp
              · split at hsp
                · exact hD st₁ plan stP hsp
                · simp only [Except.ok.injEq, Prod.mk.injEq] at hsp
                  rw [← hsp.2]
            · split at hsp
              · exact hC st₁ plan stP hsp
              · simp only [Except.ok.injEq, Prod.mk.injEq] at hsp
                rw [← hsp.2]
          have hceW := checkExistence_writes env st st₁ hce
          by_cases hpe : plan.isEmpty = true
          · rw [if_pos hpe] at h
            rw [Except.ok.injEq, Prod.mk.injEq] at h
            refine ⟨?_, st₁, plan, stP, rfl, hsp, ?_, ?_⟩
            · rw [← h.2]
              exact hplanW.trans hceW
            · rw [← h.1]
            · rw [← h.2]
          · rw [if_neg hpe] at h
            rw [Except.ok.injEq, Prod.mk.injEq] at h
            refine ⟨?_, st₁, plan, stP, rfl, hsp, ?_, ?_⟩
            · rw [← h.2]
              exact hplanW.trans hceW
            · rw [← h.1]
            · rw [← h.2]

/-- The present-present environment in check mode. -/
def envCheck : Env := { envPP with checkMode := true }

/-- The state a check-mode run ends in: only the existence GET in the
trace, the plan rendered but never executed. -/
def stCheckDone : St := ⟨[], some instObj, true, [reqCheck], []⟩

/-- The exit report of the check-mode run. -/
def resCheckMode : ExitResult := ⟨true, some instObj, [Command.toDiff cmdU]⟩

/-- Witness for C6: a concrete check-mode run with an update plan issues
no write request and reports exactly the rendered diff. -/
theorem check_mode_never_writes_witness :
    writeRequests stCheckDone.trace = writeRequests St.initial.trace ∧
    ∃ (st₁ : St) (plan : List Command) (stP : St),
      OS.checkExistence envCheck St.initial = .ok st₁ ∧
      selectPlan trivialDriver envCheck st₁ = .ok (plan, stP) ∧
      resCheckMode.diff = plan.map Command.toDiff ∧
      stCheckDone.trace = stP.trace :=
  check_mode_never_writes trivialDriver envCheck 3 St.initial rfl
    (fun _ _ _ h => by cases h; rfl)
    (fun _ _ _ h => by cases h; rfl)
    (fun _ _ _ h => by cases h; rfl)
    resCheckMode stCheckDone rfl

/-- `BaseRunner._build_simple_update_command` (openstack `base_runner.py`,
lines 433-517): compare every updatable field's user value against the
current resource; a change is recorded only when the user actually
supplied a value (not `None`) and it differs; a single PATCH UpdateCommand
carries all detected changes, and no command is produced when there are
none. -/
def buildSimpleUpdateCommand (env : Env) (st : St) : List Command :=
  match env.ctx.updatePath with
  | none => []
  | some updatePath =>
      match st.resource with
      | none => []
      | some r =>
          if !r.truthy || updatePath.isEmpty || env.ctx.updateFields.isEmpty then []
          else
            let changes := env.ctx.updateFields.filterMap (fun field =>
              let newValue := getParam env field
              let oldValue := resourceGet r field
              if !newValue.isNull && !(newValue.beq oldValue) then
                some ⟨field, oldValue, newValue⟩
              else none)
            if changes.isEmpty then []
            else [.update updatePath changes [("uuid", resourceGet r "uuid")]]

/-- `item.get("url")` when the item is a dict and the URL is not `None`. -/
def itemUrl? (item : Value) : Option Value :=
  match item with
  | .obj fs =>
      match objGet fs "url" with
      | some .null => none
      | some u => some u
      | none => none
  | _ => none

/-- A non-empty list whose first item is NOT a dict. -/
def simpleListHead (v : Value) : Bool :=
  match v with
  | .list (x :: _) => !x.isObj
  | _ => false

/-- A non-empty list whose first item IS a dict. -/
def complexListHead (v : Value) : Bool :=
  match v with
  | .list (x :: _) => x.isObj
  | _ => false

/-- The items of a list value. -/
def listOf : Value → List Value
  | .list xs => xs
  | _ => []

/-- The per-action loop of `_build_action_update_commands` (openstack
`base_runner.py`, lines 562-658): skip actions whose parameter the user
omitted; resolve the desired value; normalize both sides (transforming a
rich current list down to a simple one when the payload is simple);
generate an ActionCommand only when the normalized values differ. -/
def actionLoop (env : Env) (fuel : Nat) (st : St) (r : Value) (fmt : String)
    (actions : List (String × ActionInfo)) (acc : List Command) :
    Except Failure (List Command × St) :=
  match actions with
  | [] => .ok (acc, st)
  | (_, ai) :: tl =>
      let paramValue := getParam env ai.param
      if paramValue.isNull then actionLoop env fuel st r fmt tl acc
      else
        match OS.resolve env fuel st ai.param paramValue fmt with
        | .error e => .error e
        | .ok (resolvedPayload, st₁) =>
            let resourceValue := resourceGet r (ai.compareKey.getD ai.param)
            let defaultsMap := ai.defaultsMap.getD []
            let normalizedOld :=
              if simpleListHead resolvedPayload && complexListHead resourceValue then
                normalizeForComparison
                  (.list ((listOf resourceValue).filterMap itemUrl?)) [] defaultsMap
              else
                normalizeForComparison resourceValue ai.idempotencyKeys defaultsMap
            let normalizedNew :=
              normalizeForComparison resolvedPayload ai.idempotencyKeys defaultsMap
            if NormResult.beq normalizedNew normalizedOld then
              actionLoop env fuel st₁ r fmt tl acc
            else
              let finalPayload := if ai.wrapInObject
                then Value.obj [(ai.param, resolvedPayload)] else resolvedPayload
              actionLoop env fuel st₁ r fmt tl
                (acc ++ [.action ai.path finalPayload ai.param resourceValue
                  resolvedPayload [("uuid", resourceGet r "uuid")]])

/-- `BaseRunner._build_action_update_commands` (openstack
`base_runner.py`, lines 519-658): guard on an existing resource and
configured actions, then run the per-action loop. -/
def buildActionUpdateCommands (env : Env) (fuel : Nat) (st : St) (fmt : String) :
    Except Failure (List Command × St) :=
  match st.resource with
  | none => .ok ([], st)
  | some r =>
      if !r.truthy || env.ctx.updateActions.isEmpty then .ok ([], st)
      else actionLoop env fuel st r fmt env.ctx.updateActions []

/-- The PATCH payload `CrudRunner.update` builds (structure
`crud_runner.py`, lines 131-136): only fields the user supplied (not
`None`) whose value differs from the resource's current value. -/
def crudUpdatePayload (env : Env) (resource : Value) : List (String × Value) :=
  env.ctx.updateFields.filterMap (fun field =>
    let paramValue := getParam env field
    if !paramValue.isNull && !(paramValue.beq (resourceGet resource field)) then
      some (field, paramValue)
    else none)

/-- When every configured action's parameter was omitted, the action loop
emits nothing and leaves the state untouched. -/
theorem actionLoop_all_null (env : Env) (fuel : Nat) (r : Value) (fmt : String) :
    ∀ (actions : List (String × ActionInfo)) (st : St) (acc : List Command),
    (∀ p ∈ actions, (getParam env p.2.param).isNull = true) →
    actionLoop env fuel st r fmt actions acc = .ok (acc, st) := by
  intro actions
  induction actions with
  | nil => intro st acc _; rfl
  | cons p tl ih =>
      intro st acc h
      obtain ⟨key, ai⟩ := p
      have hp : (getParam env ai.param).isNull = true := h (key, ai) (by simp)
      simp only [actionLoop, hp, if_true]
      exact ih st acc (fun q hq => h q (by simp [hq]))

/-- Every action command the loop emits corresponds to a parameter the
user actually supplied. -/
theorem actionLoop_param_not_null (env : Env) (fuel : Nat) (r : Value) (fmt : String) :
    ∀ (actions : List (String × ActionInfo)) (st : St) (acc cmds : List Command)
      (stF : St),
    actionLoop env fuel st r fmt actions acc = .ok (cmds, stF) →
    (∀ path data pname old new pp,
        Command.action path data pname old new pp ∈ acc →
        (getParam env pname).isNull = false) →
    ∀ path data pname old new pp,
      Command.action path data pname old new pp ∈ cmds →
      (getParam env pname).isNull = false := by
  intro actions
  induction actions with
  | nil =>
      intro st acc cmds stF h hacc path data pname old new pp hmem
      simp only [actionLoop, Except.ok.injEq, Prod.mk.injEq] at h
      exact hacc path data pname old new pp (h.1 ▸ hmem)
  | cons p tl ih =>
      intro st acc cmds stF h hacc
      obtain ⟨key, ai⟩ := p
      unfold actionLoop at h
      by_cases hn : (getParam env ai.param).isNull = true
      · rw [if_pos hn] at h
        exact ih st acc cmds stF h hacc
      · rw [if_neg hn] at h
        match hr : OS.resolve env fuel st ai.param (getParam env ai.param) fmt with
        | .error e => rw [hr] at h; exact absurd h (by simp)
        | .ok (rp, st₁) =>
            rw [hr] at h
            simp only at h
            split at h <;>
            · split at h
              · exact ih st₁ acc cmds stF h hacc
              · refine ih st₁ _ cmds stF h ?_
                intro path data pname old new pp hmem
                rw [List.mem_append] at hmem
                cases hmem with
                | inl hm => exact hacc path data pname old new pp hm
                | inr hm =>
                    rw [List.mem_singleton] at hm
                    simp only [Command.action.injEq] at hm
                    obtain ⟨-, -, hp, -, -, -⟩ := hm
                    rw [hp]
                    simpa using hn

/-- C9: an omitted (None) parameter never contributes to an update.  A
simple UpdateCommand's change list only carries fields the user supplied;
when every configured action parameter is omitted, action planning emits
no command at all; every emitted ActionCommand's parameter was supplied;
and the CrudRunner PATCH payload never contains an omitted field's key. -/
theorem omitted_fields_never_updated :
    (∀ (env : Env) (st : St) (path : String) (changes : List Change)
        (pp : List (String × Value)) (ch : Change),
        Command.update path changes pp ∈ buildSimpleUpdateCommand env st →
        ch ∈ changes → (getParam env ch.param).isNull = false)
  ∧ (∀ (env : Env) (fuel : Nat) (st : St) (fmt : String),
        (∀ p ∈ env.ctx.updateActions, (getParam env p.2.param).isNull = true) →
        buildActionUpdateCommands env fuel st fmt = .ok ([], st))
  ∧ (∀ (env : Env) (fuel : Nat) (st : St) (fmt : String) (cmds : List Command)
        (stF : St),
        buildActionUpdateCommands env fuel st fmt = .ok (cmds, stF) →
        ∀ path data pname old new pp,
          Command.action path data pname old new pp ∈ cmds →
          (getParam env pname).isNull = false)
  ∧ (∀ (env : Env) (r : Value) (field : String),
        (getParam env field).isNull = true →
        objHasKey (crudUpdatePayload env r) field = false) := by
  refine ⟨?_, ?_, ?_, ?_⟩
  · intro env st path changes pp ch hmem hch
    match hup : env.ctx.updatePath with
    | none => simp [buildSimpleUpdateCommand, hup] at hmem
    | some updatePath =>
        match hres : st.resource with
        | none => simp [buildSimpleUpdateCommand, hup, hres] at hmem
        | some r =>
            simp only [buildSimpleUpdateCommand, hup, hres] at hmem
            split at hmem
            · simp at hmem
            · split at hmem
              · simp at hmem
              · rw [List.mem_singleton] at hmem
                simp only [Command.update.injEq] at hmem
                obtain ⟨-, hch2, -⟩ := hmem
                rw [hch2] at hch
                rw [List.mem_filterMap] at hch
                obtain ⟨field, -, heq⟩ := hch
                split at heq
                · rename_i hcond
                  rw [Option.some.injEq] at heq
                  rw [Bool.and_eq_true] at hcond
                  obtain ⟨h1, -⟩ := hcond
                  rw [Bool.not_eq_true'] at h1
                  rw [← heq]
                  exact h1
                · simp at heq
  · intro env fuel st fmt hall
    match hres : st.resource with
    | none => simp only [buildActionUpdateCommands, hres]
    | some r =>
        simp only [buildActionUpdateCommands, hres]
        by_cases hg : (!r.truthy || env.ctx.updateActions.isEmpty) = true
        · rw [if_pos hg]
        · rw [if_neg hg]
          exact actionLoop_all_null env fuel r fmt env.ctx.updateActions st [] hall
  · intro env fuel st fmt cmds stF h path data pname old new pp hmem
    unfold buildActionUpdateCommands at h
    match hres : st.resource with
    | none =>
        rw [hres] at h
        simp only [Except.ok.injEq, Prod.mk.injEq] at h
        rw [← h.1] at hmem
        simp at hmem
    | some r =>
        rw [hres] at h
        simp only at h
        split at h
        · simp only [Except.ok.injEq, Prod.mk.injEq] at h
          rw [← h.1] at hmem
          simp at hmem
        · exact actionLoop_param_not_null env fuel r fmt env.ctx.updateActions st []
            cmds stF h (fun _ _ _ _ _ _ hm => by simp at hm)
            path data pname old new pp hmem
  · intro env r field hnull
    unfold objHasKey objGet
    cases hf : (crudUpdatePayload env r).find? (fun kv => kv.1 == field) with
    | none => simp
    | some kv =>
        have hmem := List.mem_of_find?_eq_some hf
        have hpred := List.find?_some hf
        rw [crudUpdatePayload, List.mem_filterMap] at hmem
        obtain ⟨f, -, heq⟩ := hmem
        simp only at heq
        split at heq
        · rename_i hcond
          rw [Option.some.injEq] at heq
          rw [Bool.and_eq_true] at hcond
          obtain ⟨h1, -⟩ := hcond
          rw [Bool.not_eq_true'] at h1
          rw [← heq] at hpred
          simp only [beq_iff_eq] at hpred
          rw [← hpred] at hnull
          rw [hnull] at h1
          exact absurd h1 (by simp)
        · simp at heq

/-- Context with simple update fields configured. -/
def ctxUpdate : Ctx :=
  { ctxEmpty with updatePath := some "/api/instances/\x7buuid\x7d/",
                  updateFields := ["description", "ram"] }

/-- Environment where `description` is omitted (None) and `ram` differs. -/
def envUpd : Env :=
  { params := [("name", .str "vm-1"), ("state", .str "present"),
               ("description", .null), ("ram", .int 2048)],
    apiUrl := "https://api.test", checkMode := false, ctx := ctxUpdate,
    backend := absentBackend }

/-- The existing resource for the update scenarios. -/
def resUpd : Value :=
  .obj [("uuid", .str "u-1"), ("description", .str "old"), ("ram", .int 1024)]

/-- State holding that resource. -/
def stUpd : St := ⟨[], some resUpd, false, [], []⟩

/-- A configured security-groups update action. -/
def aiSG : ActionInfo :=
  ⟨"security_groups", none, "/api/instances/\x7buuid\x7d/update_security_groups/",
   [], none, true⟩

/-- Environment where the action's parameter was omitted. -/
def envActNull : Env :=
  { params := [("name", .str "vm-1"), ("state", .str "present")],
    apiUrl := "https://api.test", checkMode := false,
    ctx := { ctxEmpty with updateActions := [("sg", aiSG)] },
    backend := absentBackend }

/-- Environment where the action's parameter was supplied. -/
def envAct : Env :=
  { params := [("name", .str "vm-1"), ("state", .str "present"),
               ("security_groups", .list [.str "sg-a"])],
    apiUrl := "https://api.test", checkMode := false,
    ctx := { ctxEmpty with updateActions := [("sg", aiSG)] },
    backend := absentBackend }

/-- The action command the supplied scenario plans. -/
def cmdAct : Command :=
  .action "/api/instances/\x7buuid\x7d/update_security_groups/"
    (.obj [("security_groups", .list [.str "sg-a"])]) "security_groups"
    .null (.list [.str "sg-a"]) [("uuid", .str "u-1")]

/-- Witness for C9: in a concrete plan the omitted `description` never
appears in the PATCH payload or change list, the omitted action parameter
yields no action command, a planned action command's parameter was
supplied, and the CrudRunner payload omits the None field. -/
theorem omitted_fields_never_updated_witness :
    (getParam envUpd "ram").isNull = false ∧
    buildActionUpdateCommands envActNull 3 stUpd "update_action" = .ok ([], stUpd) ∧
    (getParam envAct "security_groups").isNull = false ∧
    objHasKey (crudUpdatePayload envUpd resUpd) "description" = false :=
  ⟨omitted_fields_never_updated.1 envUpd stUpd "/api/instances/\x7buuid\x7d/"
      [⟨"ram", .int 1024, .int 2048⟩] [("uuid", .str "u-1")]
      ⟨"ram", .int 1024, .int 2048⟩ (List.Mem.head _) (List.Mem.head _),
   omitted_fields_never_updated.2.1 envActNull 3 stUpd "update_action"
      (fun p hp => by
        have hp' : p ∈ [("sg", aiSG)] := hp
        rw [List.mem_singleton] at hp'
        subst hp'
        rfl),
   omitted_fields_never_updated.2.2.1 envAct 3 stUpd "update_action" [cmdAct] stUpd
      rfl "/api/instances/\x7buuid\x7d/update_security_groups/"
      (.obj [("security_groups", .list [.str "sg-a"])]) "security_groups"
      .null (.list [.str "sg-a"]) [("uuid", .str "u-1")] (List.Mem.head _),
   omitted_fields_never_updated.2.2.2 envUpd resUpd "description" rfl⟩
